import Mathlib

/-!
# stdpins.h : polarity-aware AVR port pin macros

A shallow embedding of the macros of `src/stdpins.h`.  A pin is the triple
`name,bit,pol` that the user writes in `#define LED B,5,ACTIVE_HIGH`; every macro
expands to reads and writes of the memory-mapped registers `DDRx`, `PORTx`, `PINx`
of port `x`.  The register file is an explicit state; statement macros are state
transformers and expression macros return their value together with the register
file after the evaluation.
-/

namespace Stdpins

/-! ## Data model -/

/-- Chip family chosen by the conditional compilation block at the top of the header:
`IS_Mxx8` (ATmega 48/88/168/328), `IS_Mxx4` (ATmega 164/324/644/1284), or neither. -/
inductive Family where
  | Mxx8
  | Mxx4
  | other
  deriving DecidableEq

/-- Port letter, the `name` token that is pasted onto `DDR`, `PORT`, `PIN`. -/
inductive Letter where
  | A
  | B
  | C
  | D
  deriving DecidableEq

/-- Register kind, the `type` token of the internal macros. -/
inductive RegType where
  | DDR
  | PORT
  | PIN
  deriving DecidableEq

/-- An 8-bit I/O register value. -/
abbrev Byte := Fin 256

/-- Polarity constant `#define ACTIVE_HIGH 1`. -/
def ACTIVE_HIGH : Int := 1

/-- Polarity constant `#define ACTIVE_LOW 0`. -/
def ACTIVE_LOW : Int := 0

/-- Polarity constant `#define ACTIVE_LOW_OC -1`. -/
def ACTIVE_LOW_OC : Int := -1

/-- Pin descriptor `name,bit,pol` as passed to every public macro. -/
structure Pin where
  name : Letter
  bit : Nat
  pol : Int

/-- The register file: direction, output and input register of every port, and the
pin change interrupt registers `PCMSK0..3`, `PCICR`, `PCIFR`. -/
structure State where
  ddr : Letter → Byte
  port : Letter → Byte
  pin : Letter → Byte
  pcmsk : Fin 4 → Byte
  pcicr : Byte
  pcifr : Byte

/-! ## Register access and C operators -/

/-- Conversion of an `int` result to the 8 bits kept by a register store. -/
def toByte (v : Nat) : Byte := ⟨v % 256, Nat.mod_lt v (by decide)⟩

/-- Value read from register `type ## name`. -/
def load (s : State) : RegType → Letter → Nat
  | .DDR, x => (s.ddr x).val
  | .PORT, x => (s.port x).val
  | .PIN, x => (s.pin x).val

/-- Modelled from the spec: the effect of a store to a memory-mapped register, which is
hardware and not part of the header.  `DDRx` and `PORTx` keep the low 8 bits of the value
written.  `PINx` is the "write-1-to-toggle PIN register": a store to it inverts the bits
of `PORTx` that are 1 in the value written, and the input register itself is not a latch
(it shows the pin levels, which no store changes directly). -/
def store (s : State) : RegType → Letter → Nat → State
  | .DDR, x, v => { s with ddr := Function.update s.ddr x (toByte v) }
  | .PORT, x, v => { s with port := Function.update s.port x (toByte v) }
  | .PIN, x, v =>
      { s with port := Function.update s.port x (toByte ((s.port x).val ^^^ (toByte v).val)) }

/-- avr-libc `_BV(bit)`, that is `(1 << (bit))`: "convert bit number 0..7 to bit mask
0x01..0x80". -/
def _BV (bit : Nat) : Nat := 1 <<< bit

/-- C expression `r & ~m` for a register value `r` (an unsigned 8-bit value promoted to
`int`) and a non-negative `int` `m`: the bits of `r` above bit 7 are zero, so only the low
8 bits of `~m` take part, and these are `255 ^ (m & 255)`. -/
def andNot (r m : Nat) : Nat := r &&& (255 ^^^ (m % 256))

/-- C logical negation `!v`. -/
def lnot (v : Nat) : Nat := if v = 0 then 1 else 0

/-! ## Internal macros, not polarity-aware -/

/-- Source: `#define _ppp_BV(name,bit,pol) _BV(bit)` -/
def _ppp_BV (_name : Letter) (bit : Nat) (_pol : Int) : Nat := _BV bit

/-- Source: `#define _ppp_READ(type,name,bit,pol) ((type ## name) & (1 << bit))` -/
def _ppp_READ (type : RegType) (name : Letter) (bit : Nat) (_pol : Int) (s : State) :
    Nat × State :=
  (load s type name &&& (1 <<< bit), s)

/-- Source: `#define _ppp_SET(type,name,bit,pol) type ## name |= _BV(bit)` -/
def _ppp_SET (type : RegType) (name : Letter) (bit : Nat) (_pol : Int) (s : State) : State :=
  store s type name (load s type name ||| _BV bit)

/-- Source: `#define _ppp_CLR(type,name,bit,pol) type ## name &= ~ _BV(bit)` -/
def _ppp_CLR (type : RegType) (name : Letter) (bit : Nat) (_pol : Int) (s : State) : State :=
  store s type name (andNot (load s type name) (_BV bit))

/-- Source: `#define _ppp_PUT(type,name,bit,pol,value)
type ## name = ( type ## name & ~_BV(bit) ) | ( (value) ? _BV(bit) : 0 )` -/
def _ppp_PUT (type : RegType) (name : Letter) (bit : Nat) (_pol : Int) (value : Nat)
    (s : State) : State :=
  store s type name (andNot (load s type name) (_BV bit) ||| (if value ≠ 0 then _BV bit else 0))

/-- Source: `#define _ppp_ISHIGH(type,name,bit,pol) ((type ## name >> bit) & 1)` -/
def _ppp_ISHIGH (type : RegType) (name : Letter) (bit : Nat) (_pol : Int) (s : State) :
    Nat × State :=
  ((load s type name >>> bit) &&& 1, s)

/-- The toggle macro: on `IS_Mxx8` and `IS_Mxx4` it is `PIN ## name = _BV(bit)`, otherwise
`type ## name ^= _BV(bit)`. -/
def _ppp_TOGGLE (fam : Family) (type : RegType) (name : Letter) (bit : Nat) (_pol : Int)
    (s : State) : State :=
  match fam with
  | .Mxx8 => store s .PIN name (_BV bit)
  | .Mxx4 => store s .PIN name (_BV bit)
  | .other => store s type name (load s type name ^^^ _BV bit)

/-! ## Internal macros, polarity-aware -/

/-- Source: `#define _ppp_ISACTIVEHIGH(name,bit,pol) (pol==ACTIVE_HIGH)` -/
def _ppp_ISACTIVEHIGH (_name : Letter) (_bit : Nat) (pol : Int) : Nat :=
  if pol = ACTIVE_HIGH then 1 else 0

/-- Source: `#define _ppp_IS_OC(name,bit,pol) (pol==ACTIVE_LOW_OC)` -/
def _ppp_IS_OC (_name : Letter) (_bit : Nat) (pol : Int) : Nat :=
  if pol = ACTIVE_LOW_OC then 1 else 0

/-- Source: `{ _ppp_CLR(PORT,name,bit,pol); _ppp_SET(DDR,name,bit,pol); }` -/
def _ppp_ASSERT_OC (name : Letter) (bit : Nat) (pol : Int) (s : State) : State :=
  _ppp_SET .DDR name bit pol (_ppp_CLR .PORT name bit pol s)

/-- Source: `{ _ppp_CLR(PORT,name,bit,pol); _ppp_CLR(DDR,name,bit,pol); }` -/
def _ppp_NEGATE_OC (name : Letter) (bit : Nat) (pol : Int) (s : State) : State :=
  _ppp_CLR .DDR name bit pol (_ppp_CLR .PORT name bit pol s)

/-- Source: `if (pol==ACTIVE_HIGH) { _ppp_SET(PORT,...); } else { _ppp_CLR(PORT,...); }` -/
def _ppp_ASSERT_PP (name : Letter) (bit : Nat) (pol : Int) (s : State) : State :=
  if pol = ACTIVE_HIGH then _ppp_SET .PORT name bit pol s else _ppp_CLR .PORT name bit pol s

/-- Source: `if (pol==ACTIVE_HIGH) { _ppp_CLR(PORT,...); } else { _ppp_SET(PORT,...); }` -/
def _ppp_NEGATE_PP (name : Letter) (bit : Nat) (pol : Int) (s : State) : State :=
  if pol = ACTIVE_HIGH then _ppp_CLR .PORT name bit pol s else _ppp_SET .PORT name bit pol s

/-- Source: `_ppp_PUT(type,name,bit,pol,((pol==ACTIVE_HIGH) ? (val) : !(val)))` -/
def _ppp_PUT_PA (type : RegType) (name : Letter) (bit : Nat) (pol : Int) (val : Nat)
    (s : State) : State :=
  _ppp_PUT type name bit pol (if pol = ACTIVE_HIGH then val else lnot val) s

/-- Source: `( (pol==ACTIVE_HIGH) ? _ppp_ISHIGH(type,name,bit,pol) : !_ppp_ISHIGH(type,name,bit,pol) )` -/
def _ppp_ISTRUE (type : RegType) (name : Letter) (bit : Nat) (pol : Int) (s : State) :
    Nat × State :=
  if pol = ACTIVE_HIGH then _ppp_ISHIGH type name bit pol s
  else (lnot (_ppp_ISHIGH type name bit pol s).1, (_ppp_ISHIGH type name bit pol s).2)

/-- Source: `if (pol==ACTIVE_LOW_OC) { _ppp_ASSERT_OC(...); } else { _ppp_ASSERT_PP(...); }` -/
def _ppp_ASSERT (name : Letter) (bit : Nat) (pol : Int) (s : State) : State :=
  if pol = ACTIVE_LOW_OC then _ppp_ASSERT_OC name bit pol s else _ppp_ASSERT_PP name bit pol s

/-- Source: `if (pol==ACTIVE_LOW_OC) { _ppp_NEGATE_OC(...); } else { _ppp_NEGATE_PP(...); }` -/
def _ppp_NEGATE (name : Letter) (bit : Nat) (pol : Int) (s : State) : State :=
  if pol = ACTIVE_LOW_OC then _ppp_NEGATE_OC name bit pol s else _ppp_NEGATE_PP name bit pol s

/-! ## Public macros -/

/-- Source: `#define AS_INPUT(pin) _ppp_CLR(DDR,pin)` -/
def AS_INPUT (p : Pin) (s : State) : State := _ppp_CLR .DDR p.name p.bit p.pol s

/-- Source: `#define AS_INPUT_PU(pin) _ppp_CLR(DDR,pin); _ppp_SET(PORT,pin)` -/
def AS_INPUT_PU (p : Pin) (s : State) : State :=
  _ppp_SET .PORT p.name p.bit p.pol (_ppp_CLR .DDR p.name p.bit p.pol s)

/-- Source: `#define AS_INPUT_FLOAT(pin) _ppp_CLR(DDR,pin); _ppp_CLR(PORT,pin)` -/
def AS_INPUT_FLOAT (p : Pin) (s : State) : State :=
  _ppp_CLR .PORT p.name p.bit p.pol (_ppp_CLR .DDR p.name p.bit p.pol s)

/-- Source: `#define AS_OUTPUT(pin) _ppp_SET(DDR,pin)` -/
def AS_OUTPUT (p : Pin) (s : State) : State := _ppp_SET .DDR p.name p.bit p.pol s

/-- Source: `#define PULLUP_ENABLE(pin) _ppp_SET(PORT,pin)` -/
def PULLUP_ENABLE (p : Pin) (s : State) : State := _ppp_SET .PORT p.name p.bit p.pol s

/-- Source: `#define PULLUP_DISABLE(pin) _ppp_CLR(PORT,pin)` -/
def PULLUP_DISABLE (p : Pin) (s : State) : State := _ppp_CLR .PORT p.name p.bit p.pol s

/-- Source: `#define IS_ACTIVE_HIGH(pin) _ppp_ISACTIVEHIGH(pin)` -/
def IS_ACTIVE_HIGH (p : Pin) : Nat := _ppp_ISACTIVEHIGH p.name p.bit p.pol

/-- Source: `#define IS_OC(pin) _ppp_IS_OC(pin)` -/
def IS_OC (p : Pin) : Nat := _ppp_IS_OC p.name p.bit p.pol

/-- Source: `#define READ(pin) _ppp_READ(PIN,pin)` -/
def READ (p : Pin) (s : State) : Nat × State := _ppp_READ .PIN p.name p.bit p.pol s

/-- Source: `#define TOGGLE(pin) _ppp_TOGGLE(PORT,pin)` -/
def TOGGLE (fam : Family) (p : Pin) (s : State) : State :=
  _ppp_TOGGLE fam .PORT p.name p.bit p.pol s

/-- Source: `#define SET_HIGH(pin) _ppp_SET(PORT,pin)` -/
def SET_HIGH (p : Pin) (s : State) : State := _ppp_SET .PORT p.name p.bit p.pol s

/-- Source: `#define SET_LOW(pin) _ppp_CLR(PORT,pin)` -/
def SET_LOW (p : Pin) (s : State) : State := _ppp_CLR .PORT p.name p.bit p.pol s

/-- Source: `#define SET(pin,value) _ppp_PUT(PORT,pin,value)` -/
def SET (p : Pin) (value : Nat) (s : State) : State :=
  _ppp_PUT .PORT p.name p.bit p.pol value s

/-- Source: `#define IS_HIGH(pin) _ppp_ISHIGH(PIN,pin)` -/
def IS_HIGH (p : Pin) (s : State) : Nat × State := _ppp_ISHIGH .PIN p.name p.bit p.pol s

/-- Source: `#define IS_LOW(pin) !_ppp_ISHIGH(PIN,pin)` -/
def IS_LOW (p : Pin) (s : State) : Nat × State :=
  (lnot (_ppp_ISHIGH .PIN p.name p.bit p.pol s).1, (_ppp_ISHIGH .PIN p.name p.bit p.pol s).2)

/-- Source: `#define ASSERT_OC(pin) _ppp_CLR(PORT,pin); _ppp_SET(DDR,pin)` -/
def ASSERT_OC (p : Pin) (s : State) : State :=
  _ppp_SET .DDR p.name p.bit p.pol (_ppp_CLR .PORT p.name p.bit p.pol s)

/-- Source: `#define NEGATE_OC(pin) _ppp_CLR(PORT,pin); _ppp_CLR(DDR,pin)` -/
def NEGATE_OC (p : Pin) (s : State) : State :=
  _ppp_CLR .DDR p.name p.bit p.pol (_ppp_CLR .PORT p.name p.bit p.pol s)

/-- Source: `#define ASSERT(pin) _ppp_ASSERT(pin)` -/
def ASSERT (p : Pin) (s : State) : State := _ppp_ASSERT p.name p.bit p.pol s

/-- Source: `#define NEGATE(pin) _ppp_NEGATE(pin)` -/
def NEGATE (p : Pin) (s : State) : State := _ppp_NEGATE p.name p.bit p.pol s

/-- Source: `#define SET_PA(pin,value) _ppp_PUT_PA(PORT,pin,value)` -/
def SET_PA (p : Pin) (value : Nat) (s : State) : State :=
  _ppp_PUT_PA .PORT p.name p.bit p.pol value s

/-- Source: `#define IS_TRUE(pin) _ppp_ISTRUE(PIN,pin)` -/
def IS_TRUE (p : Pin) (s : State) : Nat × State := _ppp_ISTRUE .PIN p.name p.bit p.pol s

/-- Source: `#define IS_FALSE(pin) !_ppp_ISTRUE(PIN,pin)` -/
def IS_FALSE (p : Pin) (s : State) : Nat × State :=
  (lnot (_ppp_ISTRUE .PIN p.name p.bit p.pol s).1, (_ppp_ISTRUE .PIN p.name p.bit p.pol s).2)

/-- Source: `#define _ppp_PUT_MULT(type,name,bit1,pol,nbits,value)
type ## name = (((type ## name) & ~(((1 << (nbits))-1) << bit1)) | ((value) << bit1))` -/
def _ppp_PUT_MULT (type : RegType) (name : Letter) (bit1 : Nat) (_pol : Int) (nbits value : Nat)
    (s : State) : State :=
  store s type name
    (andNot (load s type name) (((1 <<< nbits) - 1) <<< bit1) ||| (value <<< bit1))

/-- Source: `#define SET_MULT(pin,nbits,value) _ppp_PUT_MULT(PORT,pin,nbits,value)` -/
def SET_MULT (p : Pin) (nbits value : Nat) (s : State) : State :=
  _ppp_PUT_MULT .PORT p.name p.bit p.pol nbits value s

/-! ## Chip family selection -/

/-- Device macros tested by the first `#if`, which defines `IS_Mxx8`. -/
def mxx8Defines : List String :=
  ["__AVR_ATmega48__", "__AVR_ATmega48A__", "__AVR_ATmega48P__", "__AVR_ATmega48PA__",
   "__AVR_ATmega48PB__", "__AVR_ATmega88__", "__AVR_ATmega88A__", "__AVR_ATmega88P__",
   "__AVR_ATmega88PA__", "__AVR_ATmega88PB__", "__AVR_ATmega168__", "__AVR_ATmega168A__",
   "__AVR_ATmega168P__", "__AVR_ATmega168PA__", "__AVR_ATmega168PB__", "__AVR_ATmega328__",
   "__AVR_ATmega328P__", "__AVR_ATmega328PB__"]

/-- Device macros tested by the `#elif`, which defines `IS_Mxx4`. -/
def mxx4Defines : List String :=
  ["__AVR_ATmega164A__", "__AVR_ATmega164P__", "__AVR_ATmega164PA__", "__AVR_ATmega324A__",
   "__AVR_ATmega324P__", "__AVR_ATmega324PA__", "__AVR_ATmega644__", "__AVR_ATmega644A__",
   "__AVR_ATmega644P__", "__AVR_ATmega644PA__", "__AVR_ATmega1284__", "__AVR_ATmega1284P__"]

/-- Whether the header defines `IS_Mxx8`, given which macros the build defines. -/
def IS_Mxx8 (defined : String → Bool) : Bool := mxx8Defines.any defined

/-- Whether the header defines `IS_Mxx4`: the `#elif` branch, taken only when the `#if`
branch is not. -/
def IS_Mxx4 (defined : String → Bool) : Bool := !IS_Mxx8 defined && mxx4Defines.any defined

/-- The family under which the rest of the header is compiled; there is no `#error`
branch. -/
def chipFamily (defined : String → Bool) : Family :=
  if IS_Mxx8 defined then .Mxx8 else if IS_Mxx4 defined then .Mxx4 else .other

/-! ## Pin change interrupt aliases and macros

An alias that the selected family does not define makes the macro fail to compile; this is
the result `none`.  The bit numbers `PCIE0..PCIE3` come from the device header and are the
parameter `pcie`. -/

/-- Alias table `_PCMSKx`: the index `n` of the mask register `PCMSKn` of port `x`. -/
def _PCMSK : Family → Letter → Option (Fin 4)
  | .Mxx4, .A => some 0
  | .Mxx4, .B => some 1
  | .Mxx4, .C => some 2
  | .Mxx4, .D => some 3
  | .Mxx8, .B => some 0
  | .Mxx8, .C => some 1
  | .Mxx8, .D => some 2
  | .other, .B => some 0
  | _, _ => none

/-- Alias table `_PCIEx`: the index `n` of the enable bit `PCIEn` of port `x`. -/
def _PCIE : Family → Letter → Option (Fin 4)
  | .Mxx4, .A => some 0
  | .Mxx4, .B => some 1
  | .Mxx4, .C => some 2
  | .Mxx4, .D => some 3
  | .Mxx8, .B => some 0
  | .Mxx8, .C => some 1
  | .Mxx8, .D => some 2
  | .other, .B => some 0
  | _, _ => none

/-- Alias table `_PCINTx_vect`: the index `n` of the vector `PCINTn_vect` of port `x`. -/
def _PCINT_vect : Family → Letter → Option (Fin 4)
  | .Mxx4, .A => some 0
  | .Mxx4, .B => some 1
  | .Mxx4, .C => some 2
  | .Mxx4, .D => some 3
  | .Mxx8, .B => some 0
  | .Mxx8, .C => some 1
  | .Mxx8, .D => some 2
  | .other, .B => some 0
  | _, _ => none

/-- The bit numbers `PCIEn = n` of the ATmega device headers, for concrete examples. -/
def avrPCIE : Fin 4 → Nat := fun n => n.val

/-- Source: `#define _ppp_ISR(name,bit,pol) ISR( _PCINT ## name ## _vect )`; the result is
the index of the vector the handler is attached to. -/
def _ppp_ISR (fam : Family) (name : Letter) (_bit : Nat) (_pol : Int) : Option (Fin 4) :=
  _PCINT_vect fam name

/-- Source: `#define _ppp_PCIEx(name,bit,pol) (_PCIE ## name)` -/
def _ppp_PCIEx (fam : Family) (pcie : Fin 4 → Nat) (name : Letter) (_bit : Nat) (_pol : Int) :
    Option Nat :=
  (_PCIE fam name).map pcie

/-- Source: `#define _ppp_PCIEx_ENABLE(name,bit,pol) PCICR |= _BV( _PCIE ## name )` -/
def _ppp_PCIEx_ENABLE (fam : Family) (pcie : Fin 4 → Nat) (name : Letter) (_bit : Nat)
    (_pol : Int) (s : State) : Option State :=
  (_PCIE fam name).map fun n => { s with pcicr := toByte (s.pcicr.val ||| _BV (pcie n)) }

/-- Source: `#define _ppp_PCIEx_DISABLE(name,bit,pol) PCICR &= ~_BV( _PCIE ## name )` -/
def _ppp_PCIEx_DISABLE (fam : Family) (pcie : Fin 4 → Nat) (name : Letter) (_bit : Nat)
    (_pol : Int) (s : State) : Option State :=
  (_PCIE fam name).map fun n => { s with pcicr := toByte (andNot s.pcicr.val (_BV (pcie n))) }

/-- Source: `#define _ppp_PCIFx_CLEAR(name,bit,pol) PCIFR &= ~_BV( _PCIE ## name )`.  As an
expression its value is the value stored; the store is taken as a plain store of the low
8 bits. -/
def _ppp_PCIFx_CLEAR (fam : Family) (pcie : Fin 4 → Nat) (name : Letter) (_bit : Nat)
    (_pol : Int) (s : State) : Option (Nat × State) :=
  (_PCIE fam name).map fun n =>
    ((toByte (andNot s.pcifr.val (_BV (pcie n)))).val,
      { s with pcifr := toByte (andNot s.pcifr.val (_BV (pcie n))) })

/-- Source: `#define _ppp_PCIFx_TEST(name,bit,pol) (PCIFR & _BV( _PCIE ## name ))` -/
def _ppp_PCIFx_TEST (fam : Family) (pcie : Fin 4 → Nat) (name : Letter) (_bit : Nat)
    (_pol : Int) (s : State) : Option (Nat × State) :=
  (_PCIE fam name).map fun n => (s.pcifr.val &&& _BV (pcie n), s)

/-- Source: `#define PCI_ENABLE(pin) _ppp_SET(_PCMSK,pin)`, that is
`_PCMSK ## name |= _BV(bit)` on the register `PCMSKn` the alias stands for. -/
def PCI_ENABLE (fam : Family) (p : Pin) (s : State) : Option State :=
  (_PCMSK fam p.name).map fun n =>
    { s with pcmsk := Function.update s.pcmsk n (toByte ((s.pcmsk n).val ||| _BV p.bit)) }

/-- Source: `#define PCI_DISABLE(pin) _ppp_CLR(_PCMSK,pin)`, that is
`_PCMSK ## name &= ~ _BV(bit)` on the register `PCMSKn` the alias stands for. -/
def PCI_DISABLE (fam : Family) (p : Pin) (s : State) : Option State :=
  (_PCMSK fam p.name).map fun n =>
    { s with pcmsk := Function.update s.pcmsk n (toByte (andNot (s.pcmsk n).val (_BV p.bit))) }

/-- Source: `#define PCIEx_ENABLE(pin) _ppp_PCIEx_ENABLE(pin)` -/
def PCIEx_ENABLE (fam : Family) (pcie : Fin 4 → Nat) (p : Pin) (s : State) : Option State :=
  _ppp_PCIEx_ENABLE fam pcie p.name p.bit p.pol s

/-- Source: `#define PCIEx_DISABLE(pin) _ppp_PCIEx_DISABLE(pin)` -/
def PCIEx_DISABLE (fam : Family) (pcie : Fin 4 → Nat) (p : Pin) (s : State) : Option State :=
  _ppp_PCIEx_DISABLE fam pcie p.name p.bit p.pol s

/-- Source: `#define PCIFx_CLEAR(pin) _ppp_PCIFx_CLEAR(pin)` -/
def PCIFx_CLEAR (fam : Family) (pcie : Fin 4 → Nat) (p : Pin) (s : State) :
    Option (Nat × State) :=
  _ppp_PCIFx_CLEAR fam pcie p.name p.bit p.pol s

/-- Source: `#define PCIFx_TEST(pin) _ppp_PCIFx_CLEAR(pin)`, under the comment "return !=0
if interrupt flag for this pin group is set". -/
def PCIFx_TEST (fam : Family) (pcie : Fin 4 → Nat) (p : Pin) (s : State) :
    Option (Nat × State) :=
  _ppp_PCIFx_CLEAR fam pcie p.name p.bit p.pol s

/-- Source: `#define PCIEx(pin) _ppp_PCIEx(pin)` -/
def PCIEx (fam : Family) (pcie : Fin 4 → Nat) (p : Pin) : Option Nat :=
  _ppp_PCIEx fam pcie p.name p.bit p.pol

/-- Source: `#define PCI_ISR(pin) _ppp_ISR(pin)` -/
def PCI_ISR (fam : Family) (p : Pin) : Option (Fin 4) := _ppp_ISR fam p.name p.bit p.pol

/-! ## Arduino pin numbers -/

/-- Table `_ARDUINO_PIN_BASE_x`; the fallback family defines none. -/
def _ARDUINO_PIN_BASE : Family → Letter → Option Nat
  | .Mxx4, .A => some 24
  | .Mxx4, .B => some 0
  | .Mxx4, .C => some 16
  | .Mxx4, .D => some 8
  | .Mxx8, .B => some 8
  | .Mxx8, .C => some 14
  | .Mxx8, .D => some 0
  | _, _ => none

/-- Source: `#define _ppp_ARDUINO_PIN_BASE(name) (_ARDUINO_PIN_BASE_ ## name)` -/
def _ppp_ARDUINO_PIN_BASE (fam : Family) (name : Letter) : Option Nat :=
  _ARDUINO_PIN_BASE fam name

/-- Source: `#define _ppp_ARDUINO_PIN(name,bit,pol) ( bit + _ppp_ARDUINO_PIN_BASE(name) )` -/
def _ppp_ARDUINO_PIN (fam : Family) (name : Letter) (bit : Nat) (_pol : Int) : Option Nat :=
  (_ppp_ARDUINO_PIN_BASE fam name).map fun base => bit + base

/-- Source: `#define ARDUINO_PIN(pin) _ppp_ARDUINO_PIN(pin)` -/
def ARDUINO_PIN (fam : Family) (p : Pin) : Option Nat :=
  _ppp_ARDUINO_PIN fam p.name p.bit p.pol

/-! ## Individual register writes of the open-collector calls -/

/-- A call of ASSERT or NEGATE on an open-collector pin. -/
inductive OcCall where
  | assert
  | negate
  deriving DecidableEq

/-- The register file a call leaves: `ASSERT(pin)` or `NEGATE(pin)`. -/
def ocCall (p : Pin) : OcCall → State → State
  | .assert, s => ASSERT p s
  | .negate, s => NEGATE p s

/-- The register file after each of the two stores of `_ppp_ASSERT_OC` (PORT cleared, then
DDR set) and of `_ppp_NEGATE_OC` (PORT cleared, then DDR cleared), in program order. -/
def ocWrites (p : Pin) : OcCall → State → List State
  | .assert, s =>
      [_ppp_CLR .PORT p.name p.bit p.pol s,
       _ppp_SET .DDR p.name p.bit p.pol (_ppp_CLR .PORT p.name p.bit p.pol s)]
  | .negate, s =>
      [_ppp_CLR .PORT p.name p.bit p.pol s,
       _ppp_CLR .DDR p.name p.bit p.pol (_ppp_CLR .PORT p.name p.bit p.pol s)]

/-- The register file after a sequence of calls. -/
def ocRun (p : Pin) : List OcCall → State → State
  | [], s => s
  | c :: cs, s => ocRun p cs (ocCall p c s)

/-- Every register file that occurs after a store while a sequence of calls runs. -/
def ocTrace (p : Pin) : List OcCall → State → List State
  | [], _ => []
  | c :: cs, s => ocWrites p c s ++ ocTrace p cs (ocCall p c s)

/-! ## Observations used in the statements -/

/-- Bit `p.bit` of the output register `PORTx` of the pin. -/
def portBit (s : State) (p : Pin) : Bool := (s.port p.name).val.testBit p.bit

/-- Bit `p.bit` of the direction register `DDRx` of the pin. -/
def ddrBit (s : State) (p : Pin) : Bool := (s.ddr p.name).val.testBit p.bit

/-- Bit `p.bit` of the input register `PINx` of the pin. -/
def pinBit (s : State) (p : Pin) : Bool := (s.pin p.name).val.testBit p.bit

/-- The register file `s` after the input registers have taken the values `i`: the input
register follows the pin levels, it is not written by any macro. -/
def withInput (s : State) (i : Letter → Byte) : State := { s with pin := i }

/-- Frame of a write on pin `p` that takes `s` to `t`: in the DDR and PORT register of the
port of the pin every bit other than bit `p.bit` is kept, and every other register is kept
whole. -/
def onlyPinBitChanged (p : Pin) (s t : State) : Prop :=
  (∀ k : Nat, k ≠ p.bit → (t.ddr p.name).val.testBit k = (s.ddr p.name).val.testBit k) ∧
  (∀ k : Nat, k ≠ p.bit → (t.port p.name).val.testBit k = (s.port p.name).val.testBit k) ∧
  (∀ x : Letter, x ≠ p.name → t.ddr x = s.ddr x ∧ t.port x = s.port x) ∧
  t.pin = s.pin ∧ t.pcmsk = s.pcmsk ∧ t.pcicr = s.pcicr ∧ t.pcifr = s.pcifr

/-- A register file given by the pin change interrupt registers, all port registers zero,
for concrete examples. -/
def pciState (m : Byte) (cr fr : Byte) : State :=
  { ddr := fun _ => 0, port := fun _ => 0, pin := fun _ => 0,
    pcmsk := fun _ => m, pcicr := cr, pcifr := fr }

/-- A register file with every register holding the same value, for concrete examples. -/
def constState (d o i : Byte) : State :=
  { ddr := fun _ => d, port := fun _ => o, pin := fun _ => i,
    pcmsk := fun _ => 0, pcicr := 0, pcifr := 0 }

/-! ## Bit-level lemmas on register values -/

theorem testBit_mod_256 (x i : Nat) :
    (x % 256).testBit i = (decide (i < 8) && x.testBit i) :=
  Nat.testBit_mod_two_pow x 8 i

theorem testBit_255 (i : Nat) : Nat.testBit 255 i = decide (i < 8) :=
  Nat.testBit_two_pow_sub_one 8 i

theorem testBit_BV (b i : Nat) : (_BV b).testBit i = decide (b = i) := by
  unfold _BV
  rw [Nat.one_shiftLeft, Nat.testBit_two_pow]

theorem testBit_set_self (r b : Nat) (hb : b < 8) :
    ((r ||| _BV b) % 256).testBit b = true := by
  simp [testBit_mod_256, testBit_BV, hb]

theorem testBit_set_other (r b k : Nat) (hk : k ≠ b) :
    ((r ||| _BV b) % 256).testBit k = (r % 256).testBit k := by
  simp [testBit_mod_256, testBit_BV, Ne.symm hk]

theorem testBit_clr_self (r b : Nat) (hb : b < 8) :
    ((andNot r (_BV b)) % 256).testBit b = false := by
  simp [andNot, testBit_mod_256, testBit_BV, testBit_255, hb]

theorem testBit_clr_other (r b k : Nat) (hk : k ≠ b) :
    ((andNot r (_BV b)) % 256).testBit k = (r % 256).testBit k := by
  simp only [andNot, testBit_mod_256, testBit_BV, testBit_255, Nat.testBit_and,
    Nat.testBit_xor, Ne.symm hk, decide_False, Bool.and_false, Bool.xor_false]
  cases decide (k < 8) <;> cases r.testBit k <;> rfl

theorem byte_mod (r : Byte) : r.val % 256 = r.val := Nat.mod_eq_of_lt r.isLt

theorem toByte_val (r : Byte) : toByte r.val = r := by
  apply Fin.ext
  simp [toByte, byte_mod]

theorem shiftRight_and_one (r b : Nat) :
    (r >>> b) &&& 1 = if r.testBit b then 1 else 0 := by
  have h : r.testBit b = decide ((r >>> b) % 2 = 1) := by
    rw [Nat.testBit_to_div_mod, Nat.shiftRight_eq_div_pow]
  rw [h, Nat.and_one_is_mod]
  rcases Nat.mod_two_eq_zero_or_one (r >>> b) with h0 | h1
  · simp [h0]
  · simp [h1]

theorem shiftRight_mod_two (r b : Nat) :
    r >>> b % 2 = if r.testBit b then 1 else 0 := by
  rw [← Nat.and_one_is_mod, shiftRight_and_one]

theorem and_one_shiftLeft_ne_zero (r b : Nat) (h : r.testBit b = true) :
    r &&& (1 <<< b) ≠ 0 := by
  intro h0
  have h1 : (r &&& (1 <<< b)).testBit b = true := by
    rw [Nat.testBit_and, h, Nat.one_shiftLeft, Nat.testBit_two_pow_self]
    rfl
  rw [h0, Nat.zero_testBit] at h1
  exact Bool.noConfusion h1

theorem testBit_put_set (r b : Nat) (hb : b < 8) :
    ((andNot r (_BV b) ||| _BV b) % 256).testBit b = true := by
  simp [testBit_mod_256, testBit_BV, hb]

theorem byte_testBit (r : Byte) (k : Nat) :
    r.val.testBit k = (decide (k < 8) && r.val.testBit k) := by
  conv_lhs => rw [← byte_mod r]
  exact testBit_mod_256 r.val k

theorem byte_ext (x y : Nat) (hx : x < 256) (hy : y < 256)
    (h : ∀ i, i < 8 → x.testBit i = y.testBit i) : x = y := by
  have hpow : ∀ i, ¬ i < 8 → 256 ≤ 2 ^ i := fun i hi =>
    calc 256 = 2 ^ 8 := by norm_num
      _ ≤ 2 ^ i := Nat.pow_le_pow_right (by norm_num) (by omega)
  apply Nat.eq_of_testBit_eq
  intro i
  by_cases hi : i < 8
  · exact h i hi
  · rw [Nat.testBit_lt_two_pow (lt_of_lt_of_le hx (hpow i hi)),
      Nat.testBit_lt_two_pow (lt_of_lt_of_le hy (hpow i hi))]

theorem xor_twice_mod (r m : Nat) (hr : r < 256) : ((r ^^^ m) % 256 ^^^ m) % 256 = r := by
  apply byte_ext _ _ (Nat.mod_lt _ (by norm_num)) hr
  intro i hi
  simp [testBit_mod_256, hi]

theorem testBit_toggle_self (r : Byte) (b : Nat) (hb : b < 8) :
    ((r.val ^^^ _BV b) % 256).testBit b = !r.val.testBit b ∧
    ((r.val ^^^ _BV b % 256) % 256).testBit b = !r.val.testBit b := by
  simp [testBit_mod_256, testBit_BV, hb]

theorem testBit_toggle_other (r : Byte) (b k : Nat) (hk : k ≠ b) :
    ((r.val ^^^ _BV b) % 256).testBit k = r.val.testBit k ∧
    ((r.val ^^^ _BV b % 256) % 256).testBit k = r.val.testBit k := by
  rw [byte_testBit r k]
  simp [testBit_mod_256, testBit_BV, Ne.symm hk]

theorem lnot_ite (c : Bool) : lnot (if c then 1 else 0) = if c then 0 else 1 := by
  cases c <;> rfl

/-! ## Claims -/

/-- C1: for every register state, port letter and bit index in 0..7, ASSERT on an
ACTIVE_HIGH pin leaves the PORT bit at 1 and NEGATE leaves it at 0; on an ACTIVE_LOW pin
ASSERT leaves the PORT bit at 0 and NEGATE leaves it at 1; in both polarities the DDR
register of the pin is unchanged. -/
theorem C1_assert_negate_push_pull (s : State) (name : Letter) (bit : Nat) (hbit : bit < 8) :
    portBit (ASSERT ⟨name, bit, ACTIVE_HIGH⟩ s) ⟨name, bit, ACTIVE_HIGH⟩ = true ∧
    portBit (NEGATE ⟨name, bit, ACTIVE_HIGH⟩ s) ⟨name, bit, ACTIVE_HIGH⟩ = false ∧
    portBit (ASSERT ⟨name, bit, ACTIVE_LOW⟩ s) ⟨name, bit, ACTIVE_LOW⟩ = false ∧
    portBit (NEGATE ⟨name, bit, ACTIVE_LOW⟩ s) ⟨name, bit, ACTIVE_LOW⟩ = true ∧
    (ASSERT ⟨name, bit, ACTIVE_HIGH⟩ s).ddr = s.ddr ∧
    (NEGATE ⟨name, bit, ACTIVE_HIGH⟩ s).ddr = s.ddr ∧
    (ASSERT ⟨name, bit, ACTIVE_LOW⟩ s).ddr = s.ddr ∧
    (NEGATE ⟨name, bit, ACTIVE_LOW⟩ s).ddr = s.ddr := by
  simp [portBit, ASSERT, NEGATE, _ppp_ASSERT, _ppp_NEGATE, _ppp_ASSERT_PP, _ppp_NEGATE_PP,
    _ppp_SET, _ppp_CLR, store, load, toByte, ACTIVE_HIGH, ACTIVE_LOW, ACTIVE_LOW_OC,
    testBit_set_self, testBit_clr_self, hbit]

/-- C1 at pin B,5 on a register file with all registers zero. -/
theorem C1_assert_negate_push_pull_witness :
    5 < 8 ∧
    portBit (ASSERT ⟨.B, 5, ACTIVE_HIGH⟩ (constState 0 0 0)) ⟨.B, 5, ACTIVE_HIGH⟩ = true ∧
    portBit (NEGATE ⟨.B, 5, ACTIVE_HIGH⟩ (constState 0 0 0)) ⟨.B, 5, ACTIVE_HIGH⟩ = false ∧
    portBit (ASSERT ⟨.B, 5, ACTIVE_LOW⟩ (constState 0 0 0)) ⟨.B, 5, ACTIVE_LOW⟩ = false ∧
    portBit (NEGATE ⟨.B, 5, ACTIVE_LOW⟩ (constState 0 0 0)) ⟨.B, 5, ACTIVE_LOW⟩ = true ∧
    (ASSERT ⟨.B, 5, ACTIVE_HIGH⟩ (constState 0 0 0)).ddr = (constState 0 0 0).ddr ∧
    (NEGATE ⟨.B, 5, ACTIVE_HIGH⟩ (constState 0 0 0)).ddr = (constState 0 0 0).ddr ∧
    (ASSERT ⟨.B, 5, ACTIVE_LOW⟩ (constState 0 0 0)).ddr = (constState 0 0 0).ddr ∧
    (NEGATE ⟨.B, 5, ACTIVE_LOW⟩ (constState 0 0 0)).ddr = (constState 0 0 0).ddr :=
  ⟨by decide, C1_assert_negate_push_pull (constState 0 0 0) .B 5 (by decide)⟩

/-- C2: for every register state and every ACTIVE_LOW_OC pin (bit index in 0..7), after
ASSERT the DDR bit is 1 and the PORT bit is 0; after NEGATE the DDR bit is 0 and the PORT
bit is 0. -/
theorem C2_open_collector_assert_negate (s : State) (name : Letter) (bit : Nat)
    (hbit : bit < 8) :
    ddrBit (ASSERT ⟨name, bit, ACTIVE_LOW_OC⟩ s) ⟨name, bit, ACTIVE_LOW_OC⟩ = true ∧
    portBit (ASSERT ⟨name, bit, ACTIVE_LOW_OC⟩ s) ⟨name, bit, ACTIVE_LOW_OC⟩ = false ∧
    ddrBit (NEGATE ⟨name, bit, ACTIVE_LOW_OC⟩ s) ⟨name, bit, ACTIVE_LOW_OC⟩ = false ∧
    portBit (NEGATE ⟨name, bit, ACTIVE_LOW_OC⟩ s) ⟨name, bit, ACTIVE_LOW_OC⟩ = false := by
  simp [portBit, ddrBit, ASSERT, NEGATE, _ppp_ASSERT, _ppp_NEGATE, _ppp_ASSERT_OC,
    _ppp_NEGATE_OC, _ppp_SET, _ppp_CLR, store, load, toByte, ACTIVE_LOW_OC,
    testBit_set_self, testBit_clr_self, hbit]

/-- C2 at pin C,4 with DDRC = 0x00 and PORTC = 0xFF before the call. -/
theorem C2_open_collector_assert_negate_witness :
    4 < 8 ∧
    ddrBit (ASSERT ⟨.C, 4, ACTIVE_LOW_OC⟩ (constState 0 255 0)) ⟨.C, 4, ACTIVE_LOW_OC⟩ = true ∧
    portBit (ASSERT ⟨.C, 4, ACTIVE_LOW_OC⟩ (constState 0 255 0)) ⟨.C, 4, ACTIVE_LOW_OC⟩ = false ∧
    ddrBit (NEGATE ⟨.C, 4, ACTIVE_LOW_OC⟩ (constState 0 255 0)) ⟨.C, 4, ACTIVE_LOW_OC⟩ = false ∧
    portBit (NEGATE ⟨.C, 4, ACTIVE_LOW_OC⟩ (constState 0 255 0)) ⟨.C, 4, ACTIVE_LOW_OC⟩ = false :=
  ⟨by decide, C2_open_collector_assert_negate (constState 0 255 0) .C 4 (by decide)⟩

/-- C3, as stated, fails: pin B,0 is ACTIVE_HIGH, all registers are zero (the pin is an
input held low); ASSERT sets bit 0 of PORTB, IS_TRUE then reads bit 0 of PINB, which is
still 0, and yields 0. -/
theorem C3_counterexample :
    (IS_TRUE ⟨.B, 0, ACTIVE_HIGH⟩ (ASSERT ⟨.B, 0, ACTIVE_HIGH⟩ (constState 0 0 0))).1 ≠ 1 := by
  decide

/-- C3 amended: ASSERT and NEGATE do not write the input register that IS_TRUE reads.  For
every polarity in ACTIVE_HIGH, ACTIVE_LOW, ACTIVE_LOW_OC, every pin with bit index in 0..7
and every state: if after ASSERT the PIN bit equals the PORT bit, IS_TRUE yields 1; for
ACTIVE_HIGH and ACTIVE_LOW, if after NEGATE the PIN bit equals the PORT bit, IS_TRUE yields
0; for ACTIVE_LOW_OC, IS_TRUE after NEGATE yields 0 when the PIN bit reads 1. -/
theorem C3_assert_negate_then_is_true (s : State) (name : Letter) (bit : Nat) (pol : Int)
    (hbit : bit < 8)
    (hpol : pol = ACTIVE_HIGH ∨ pol = ACTIVE_LOW ∨ pol = ACTIVE_LOW_OC) :
    (ASSERT ⟨name, bit, pol⟩ s).pin = s.pin ∧
    (NEGATE ⟨name, bit, pol⟩ s).pin = s.pin ∧
    (pinBit (ASSERT ⟨name, bit, pol⟩ s) ⟨name, bit, pol⟩ =
        portBit (ASSERT ⟨name, bit, pol⟩ s) ⟨name, bit, pol⟩ →
      (IS_TRUE ⟨name, bit, pol⟩ (ASSERT ⟨name, bit, pol⟩ s)).1 = 1) ∧
    (pol ≠ ACTIVE_LOW_OC →
      pinBit (NEGATE ⟨name, bit, pol⟩ s) ⟨name, bit, pol⟩ =
        portBit (NEGATE ⟨name, bit, pol⟩ s) ⟨name, bit, pol⟩ →
      (IS_TRUE ⟨name, bit, pol⟩ (NEGATE ⟨name, bit, pol⟩ s)).1 = 0) ∧
    (pol = ACTIVE_LOW_OC →
      pinBit (NEGATE ⟨name, bit, pol⟩ s) ⟨name, bit, pol⟩ = true →
      (IS_TRUE ⟨name, bit, pol⟩ (NEGATE ⟨name, bit, pol⟩ s)).1 = 0) := by
  rcases hpol with h | h | h <;> subst h <;>
    simp [pinBit, portBit, IS_TRUE, _ppp_ISTRUE, _ppp_ISHIGH, ASSERT, NEGATE, _ppp_ASSERT,
      _ppp_NEGATE, _ppp_ASSERT_PP, _ppp_NEGATE_PP, _ppp_ASSERT_OC, _ppp_NEGATE_OC, _ppp_SET,
      _ppp_CLR, store, load, toByte, ACTIVE_HIGH, ACTIVE_LOW, ACTIVE_LOW_OC,
      testBit_set_self, testBit_clr_self, hbit, shiftRight_mod_two, lnot_ite]

/-- C3 amended, at pin B,0: ACTIVE_HIGH with PINB = 0xFF after ASSERT, ACTIVE_LOW with
PINB = 0xFF after NEGATE, ACTIVE_LOW_OC with PINB = 0xFF after NEGATE. -/
theorem C3_assert_negate_then_is_true_witness :
    0 < 8 ∧
    (IS_TRUE ⟨.B, 0, ACTIVE_HIGH⟩ (ASSERT ⟨.B, 0, ACTIVE_HIGH⟩ (constState 255 0 255))).1 = 1 ∧
    (IS_TRUE ⟨.B, 0, ACTIVE_LOW⟩ (NEGATE ⟨.B, 0, ACTIVE_LOW⟩ (constState 255 0 255))).1 = 0 ∧
    (IS_TRUE ⟨.B, 0, ACTIVE_LOW_OC⟩
      (NEGATE ⟨.B, 0, ACTIVE_LOW_OC⟩ (constState 255 0 255))).1 = 0 :=
  ⟨by decide,
   (C3_assert_negate_then_is_true (constState 255 0 255) .B 0 ACTIVE_HIGH (by decide)
      (Or.inl rfl)).2.2.1 (by decide),
   (C3_assert_negate_then_is_true (constState 255 0 255) .B 0 ACTIVE_LOW (by decide)
      (Or.inr (Or.inl rfl))).2.2.2.1 (by decide) (by decide),
   (C3_assert_negate_then_is_true (constState 255 0 255) .B 0 ACTIVE_LOW_OC (by decide)
      (Or.inr (Or.inr rfl))).2.2.2.2 rfl (by decide)⟩

/-- C4, as stated, fails: on the ACTIVE_LOW_OC pin B,0 with all registers zero,
SET_PA(pin, 1) leaves bit 0 of PORTB at 0, whereas 1 XOR (polarity == ACTIVE_LOW) is 1. -/
theorem C4_counterexample :
    portBit (SET_PA ⟨.B, 0, ACTIVE_LOW_OC⟩ 1 (constState 0 0 0)) ⟨.B, 0, ACTIVE_LOW_OC⟩ ≠
      xor (decide ((1 : Nat) ≠ 0)) (decide (ACTIVE_LOW_OC = ACTIVE_LOW)) := by
  decide

/-- C4 amended: for every pin with bit index in 0..7, every polarity and every value,
SET_PA(pin, value) sets the PORT bit to value XOR (polarity != ACTIVE_HIGH): the bit is
inverted for ACTIVE_LOW and for ACTIVE_LOW_OC, and not inverted for ACTIVE_HIGH. -/
theorem C4_set_pa_port_bit (s : State) (name : Letter) (bit : Nat) (pol : Int) (value : Nat)
    (hbit : bit < 8) :
    portBit (SET_PA ⟨name, bit, pol⟩ value s) ⟨name, bit, pol⟩ =
      xor (decide (value ≠ 0)) (decide (pol ≠ ACTIVE_HIGH)) := by
  by_cases hp : pol = ACTIVE_HIGH <;> by_cases hv : value = 0 <;>
    simp [portBit, SET_PA, _ppp_PUT_PA, _ppp_PUT, store, load, toByte, testBit_put_set,
      testBit_clr_self, hbit, hp, hv, lnot]

/-- C4 amended, at the ACTIVE_LOW_OC pin B,0 with value 1: the PORT bit becomes 0. -/
theorem C4_set_pa_port_bit_witness :
    0 < 8 ∧
    portBit (SET_PA ⟨.B, 0, ACTIVE_LOW_OC⟩ 1 (constState 0 255 0)) ⟨.B, 0, ACTIVE_LOW_OC⟩ =
      xor (decide ((1 : Nat) ≠ 0)) (decide (ACTIVE_LOW_OC ≠ ACTIVE_HIGH)) :=
  ⟨by decide, C4_set_pa_port_bit (constState 0 255 0) .B 0 ACTIVE_LOW_OC 1 (by decide)⟩

/-- C5, as stated, fails: on pin B,0 with all registers zero (the pin is an input held
low), SET(pin, 1) sets bit 0 of PORTB, and IS_HIGH then reads bit 0 of PINB, which is
still 0; READ(pin) is 0 as well. -/
theorem C5_counterexample :
    (IS_HIGH ⟨.B, 0, ACTIVE_HIGH⟩ (SET ⟨.B, 0, ACTIVE_HIGH⟩ 1 (constState 0 0 0))).1 = 0 ∧
    (READ ⟨.B, 0, ACTIVE_HIGH⟩ (SET ⟨.B, 0, ACTIVE_HIGH⟩ 1 (constState 0 0 0))).1 = 0 := by
  decide

/-- C5 amended: for every pin with bit index in 0..7, every polarity, every state and every
non-zero value, SET(pin, value) leaves the PORT bit at 1 and does not write the input
register; if after it the PIN bit equals the PORT bit, IS_HIGH yields 1 and READ is
non-zero; the register state after SET and the value of IS_HIGH do not depend on the
polarity. -/
theorem C5_set_then_is_high (s : State) (name : Letter) (bit : Nat) (pol : Int) (value : Nat)
    (hbit : bit < 8) (hvalue : value ≠ 0) :
    portBit (SET ⟨name, bit, pol⟩ value s) ⟨name, bit, pol⟩ = true ∧
    (SET ⟨name, bit, pol⟩ value s).pin = s.pin ∧
    (pinBit (SET ⟨name, bit, pol⟩ value s) ⟨name, bit, pol⟩ =
        portBit (SET ⟨name, bit, pol⟩ value s) ⟨name, bit, pol⟩ →
      (IS_HIGH ⟨name, bit, pol⟩ (SET ⟨name, bit, pol⟩ value s)).1 = 1 ∧
      (READ ⟨name, bit, pol⟩ (SET ⟨name, bit, pol⟩ value s)).1 ≠ 0) ∧
    (∀ pol2 : Int, SET ⟨name, bit, pol2⟩ value s = SET ⟨name, bit, pol⟩ value s ∧
      ∀ t : State, (IS_HIGH ⟨name, bit, pol2⟩ t).1 = (IS_HIGH ⟨name, bit, pol⟩ t).1) := by
  have hport : portBit (SET ⟨name, bit, pol⟩ value s) ⟨name, bit, pol⟩ = true := by
    simp [portBit, SET, _ppp_PUT, store, load, toByte, testBit_put_set, hbit, hvalue]
  refine ⟨hport, rfl, ?_, fun pol2 => ⟨rfl, fun t => rfl⟩⟩
  intro hpin
  rw [hport] at hpin
  have hpin2 : (s.pin name).val.testBit bit = true := hpin
  constructor
  · simp [IS_HIGH, _ppp_ISHIGH, load, SET, _ppp_PUT, store, shiftRight_mod_two, hpin2]
  · exact and_one_shiftLeft_ne_zero _ _ hpin2

/-- C5 amended, at pin D,6 with PIND = 0xFF: SET(pin, 1) and then IS_HIGH yields 1. -/
theorem C5_set_then_is_high_witness :
    6 < 8 ∧ (1 : Nat) ≠ 0 ∧
    (IS_HIGH ⟨.D, 6, ACTIVE_LOW⟩ (SET ⟨.D, 6, ACTIVE_LOW⟩ 1 (constState 255 0 255))).1 = 1 ∧
    (READ ⟨.D, 6, ACTIVE_LOW⟩ (SET ⟨.D, 6, ACTIVE_LOW⟩ 1 (constState 255 0 255))).1 ≠ 0 :=
  ⟨by decide, by decide,
   (C5_set_then_is_high (constState 255 0 255) .D 6 ACTIVE_LOW 1 (by decide)
      (by decide)).2.2.1 (by decide)⟩

/-- C6: for every pin with bit index in 0..7 and every state, AS_INPUT_PU leaves the DDR
bit at 0 and the PORT bit at 1; AS_INPUT_FLOAT leaves the DDR bit at 0 and the PORT bit at
0; AS_INPUT leaves the DDR bit at 0 and the PORT register unchanged; AS_OUTPUT leaves the
DDR bit at 1 and the PORT register unchanged. -/
theorem C6_direction_macros (s : State) (name : Letter) (bit : Nat) (pol : Int)
    (hbit : bit < 8) :
    ddrBit (AS_INPUT_PU ⟨name, bit, pol⟩ s) ⟨name, bit, pol⟩ = false ∧
    portBit (AS_INPUT_PU ⟨name, bit, pol⟩ s) ⟨name, bit, pol⟩ = true ∧
    ddrBit (AS_INPUT_FLOAT ⟨name, bit, pol⟩ s) ⟨name, bit, pol⟩ = false ∧
    portBit (AS_INPUT_FLOAT ⟨name, bit, pol⟩ s) ⟨name, bit, pol⟩ = false ∧
    ddrBit (AS_INPUT ⟨name, bit, pol⟩ s) ⟨name, bit, pol⟩ = false ∧
    (AS_INPUT ⟨name, bit, pol⟩ s).port = s.port ∧
    ddrBit (AS_OUTPUT ⟨name, bit, pol⟩ s) ⟨name, bit, pol⟩ = true ∧
    (AS_OUTPUT ⟨name, bit, pol⟩ s).port = s.port := by
  simp [portBit, ddrBit, AS_INPUT_PU, AS_INPUT_FLOAT, AS_INPUT, AS_OUTPUT, _ppp_SET, _ppp_CLR,
    store, load, toByte, testBit_set_self, testBit_clr_self, hbit]

/-- C6 at the button pin D,6 of the example program, with DDRD = 0xFF and PORTD = 0x00
before the call. -/
theorem C6_direction_macros_witness :
    6 < 8 ∧
    ddrBit (AS_INPUT_PU ⟨.D, 6, ACTIVE_LOW⟩ (constState 255 0 0)) ⟨.D, 6, ACTIVE_LOW⟩ = false ∧
    portBit (AS_INPUT_PU ⟨.D, 6, ACTIVE_LOW⟩ (constState 255 0 0)) ⟨.D, 6, ACTIVE_LOW⟩ = true ∧
    ddrBit (AS_INPUT_FLOAT ⟨.D, 6, ACTIVE_LOW⟩ (constState 255 0 0)) ⟨.D, 6, ACTIVE_LOW⟩
      = false ∧
    portBit (AS_INPUT_FLOAT ⟨.D, 6, ACTIVE_LOW⟩ (constState 255 0 0)) ⟨.D, 6, ACTIVE_LOW⟩
      = false ∧
    ddrBit (AS_INPUT ⟨.D, 6, ACTIVE_LOW⟩ (constState 255 0 0)) ⟨.D, 6, ACTIVE_LOW⟩ = false ∧
    (AS_INPUT ⟨.D, 6, ACTIVE_LOW⟩ (constState 255 0 0)).port = (constState 255 0 0).port ∧
    ddrBit (AS_OUTPUT ⟨.D, 6, ACTIVE_LOW⟩ (constState 255 0 0)) ⟨.D, 6, ACTIVE_LOW⟩ = true ∧
    (AS_OUTPUT ⟨.D, 6, ACTIVE_LOW⟩ (constState 255 0 0)).port = (constState 255 0 0).port :=
  ⟨by decide, C6_direction_macros (constState 255 0 0) .D 6 ACTIVE_LOW (by decide)⟩

/-- C7: for every chip family (Mxx8, Mxx4, fallback), every pin with bit index in 0..7 and
every state, TOGGLE inverts the bit of the pin in the PORT register and leaves every other
bit of that register unchanged. -/
theorem C7_toggle_inverts_port_bit (fam : Family) (s : State) (name : Letter) (bit : Nat)
    (pol : Int) (hbit : bit < 8) :
    portBit (TOGGLE fam ⟨name, bit, pol⟩ s) ⟨name, bit, pol⟩ = !portBit s ⟨name, bit, pol⟩ ∧
    ∀ k : Nat, k ≠ bit →
      ((TOGGLE fam ⟨name, bit, pol⟩ s).port name).val.testBit k =
        (s.port name).val.testBit k := by
  constructor
  · cases fam <;>
      simp [portBit, TOGGLE, _ppp_TOGGLE, store, load, toByte,
        (testBit_toggle_self (s.port name) bit hbit).1,
        (testBit_toggle_self (s.port name) bit hbit).2]
  · intro k hk
    cases fam <;>
      simp [TOGGLE, _ppp_TOGGLE, store, load, toByte,
        (testBit_toggle_other (s.port name) bit k hk).1,
        (testBit_toggle_other (s.port name) bit k hk).2]

/-- C7 on each family at the led pin B,1 of the example program with PORTB = 0xFF. -/
theorem C7_toggle_inverts_port_bit_witness :
    1 < 8 ∧
    portBit (TOGGLE .Mxx8 ⟨.B, 1, ACTIVE_HIGH⟩ (constState 255 255 0)) ⟨.B, 1, ACTIVE_HIGH⟩ =
      !portBit (constState 255 255 0) ⟨.B, 1, ACTIVE_HIGH⟩ ∧
    portBit (TOGGLE .other ⟨.B, 1, ACTIVE_HIGH⟩ (constState 255 255 0)) ⟨.B, 1, ACTIVE_HIGH⟩ =
      !portBit (constState 255 255 0) ⟨.B, 1, ACTIVE_HIGH⟩ :=
  ⟨by decide,
   (C7_toggle_inverts_port_bit .Mxx8 (constState 255 255 0) .B 1 ACTIVE_HIGH (by decide)).1,
   (C7_toggle_inverts_port_bit .other (constState 255 255 0) .B 1 ACTIVE_HIGH (by decide)).1⟩

/-- C8: for every chip family, pin and state, AS_OUTPUT followed by two TOGGLEs leaves the
whole PORT register, and so the PORT bit of the pin, equal to its value before the two
toggles (which is also its value before AS_OUTPUT). -/
theorem C8_toggle_twice (fam : Family) (s : State) (p : Pin) :
    (TOGGLE fam p (TOGGLE fam p (AS_OUTPUT p s))).port = (AS_OUTPUT p s).port ∧
    portBit (TOGGLE fam p (TOGGLE fam p (AS_OUTPUT p s))) p = portBit (AS_OUTPUT p s) p ∧
    (AS_OUTPUT p s).port = s.port := by
  have hport : (TOGGLE fam p (TOGGLE fam p (AS_OUTPUT p s))).port = (AS_OUTPUT p s).port := by
    funext y
    by_cases hy : y = p.name
    · subst hy
      apply Fin.ext
      cases fam
      · simpa [TOGGLE, _ppp_TOGGLE, store, load, toByte, AS_OUTPUT, _ppp_SET] using
          xor_twice_mod (s.port p.name).val (_BV p.bit % 256) (s.port p.name).isLt
      · simpa [TOGGLE, _ppp_TOGGLE, store, load, toByte, AS_OUTPUT, _ppp_SET] using
          xor_twice_mod (s.port p.name).val (_BV p.bit % 256) (s.port p.name).isLt
      · simpa [TOGGLE, _ppp_TOGGLE, store, load, toByte, AS_OUTPUT, _ppp_SET] using
          xor_twice_mod (s.port p.name).val (_BV p.bit) (s.port p.name).isLt
    · cases fam <;>
        simp [TOGGLE, _ppp_TOGGLE, store, load, AS_OUTPUT, _ppp_SET, Function.update, hy]
  refine ⟨hport, ?_, rfl⟩
  unfold portBit
  rw [hport]

/-- C9, as stated, fails: with all registers zero, ASSERT on the ACTIVE_HIGH descriptor of
pin B,0 followed by IS_TRUE on it yields 0, and ASSERT on the ACTIVE_LOW descriptor of the
same pin followed by IS_TRUE on it yields 1: the two logical reads differ. -/
theorem C9_counterexample :
    (IS_TRUE ⟨.B, 0, ACTIVE_HIGH⟩ (ASSERT ⟨.B, 0, ACTIVE_HIGH⟩ (constState 0 0 0))).1 ≠
    (IS_TRUE ⟨.B, 0, ACTIVE_LOW⟩ (ASSERT ⟨.B, 0, ACTIVE_LOW⟩ (constState 0 0 0))).1 := by
  decide

/-- C9 amended: for every port letter, bit index in 0..7 and state, ASSERT on the
ACTIVE_HIGH descriptor leaves the PORT bit at 1 and ASSERT on the ACTIVE_LOW descriptor of
the same pin leaves it at 0; IS_TRUE reads the input register, which ASSERT does not write:
whenever the input register then holds a PIN bit equal to the PORT bit left by that ASSERT,
IS_TRUE on the descriptor yields 1, for both descriptors. -/
theorem C9_opposite_polarity (s : State) (name : Letter) (bit : Nat) (hbit : bit < 8) :
    portBit (ASSERT ⟨name, bit, ACTIVE_HIGH⟩ s) ⟨name, bit, ACTIVE_HIGH⟩ = true ∧
    portBit (ASSERT ⟨name, bit, ACTIVE_LOW⟩ s) ⟨name, bit, ACTIVE_LOW⟩ = false ∧
    (∀ i : Letter → Byte,
      pinBit (withInput (ASSERT ⟨name, bit, ACTIVE_HIGH⟩ s) i) ⟨name, bit, ACTIVE_HIGH⟩ =
        portBit (withInput (ASSERT ⟨name, bit, ACTIVE_HIGH⟩ s) i) ⟨name, bit, ACTIVE_HIGH⟩ →
      (IS_TRUE ⟨name, bit, ACTIVE_HIGH⟩
        (withInput (ASSERT ⟨name, bit, ACTIVE_HIGH⟩ s) i)).1 = 1) ∧
    (∀ i : Letter → Byte,
      pinBit (withInput (ASSERT ⟨name, bit, ACTIVE_LOW⟩ s) i) ⟨name, bit, ACTIVE_LOW⟩ =
        portBit (withInput (ASSERT ⟨name, bit, ACTIVE_LOW⟩ s) i) ⟨name, bit, ACTIVE_LOW⟩ →
      (IS_TRUE ⟨name, bit, ACTIVE_LOW⟩
        (withInput (ASSERT ⟨name, bit, ACTIVE_LOW⟩ s) i)).1 = 1) := by
  simp [pinBit, portBit, withInput, IS_TRUE, _ppp_ISTRUE, _ppp_ISHIGH, ASSERT, _ppp_ASSERT,
    _ppp_ASSERT_PP, _ppp_SET, _ppp_CLR, store, load, toByte, ACTIVE_HIGH, ACTIVE_LOW,
    ACTIVE_LOW_OC, testBit_set_self, testBit_clr_self, hbit, shiftRight_mod_two, lnot_ite]

/-- C9 amended, at pin B,5 from all registers zero: after ASSERT on the ACTIVE_HIGH
descriptor with PINB then 0xFF, and after ASSERT on the ACTIVE_LOW descriptor with PINB
then 0x00, IS_TRUE yields 1. -/
theorem C9_opposite_polarity_witness :
    5 < 8 ∧
    (IS_TRUE ⟨.B, 5, ACTIVE_HIGH⟩
      (withInput (ASSERT ⟨.B, 5, ACTIVE_HIGH⟩ (constState 0 0 0)) (fun _ => 255))).1 = 1 ∧
    (IS_TRUE ⟨.B, 5, ACTIVE_LOW⟩
      (withInput (ASSERT ⟨.B, 5, ACTIVE_LOW⟩ (constState 0 0 0)) (fun _ => 0))).1 = 1 :=
  ⟨by decide,
   (C9_opposite_polarity (constState 0 0 0) .B 5 (by decide)).2.2.1 (fun _ => 255) (by decide),
   (C9_opposite_polarity (constState 0 0 0) .B 5 (by decide)).2.2.2 (fun _ => 0) (by decide)⟩

/-- C10: for every state and pin, IS_TRUE is 1 if the PIN bit equals the TRUE level of the
pin (1 for ACTIVE_HIGH, 0 for ACTIVE_LOW and ACTIVE_LOW_OC) and 0 otherwise; IS_FALSE is 1
exactly when IS_TRUE is 0 (and is 0 otherwise); evaluating either leaves the register file
as it was. -/
theorem C10_is_true_is_false (s : State) (name : Letter) (bit : Nat) :
    (IS_TRUE ⟨name, bit, ACTIVE_HIGH⟩ s).1 =
      (if pinBit s ⟨name, bit, ACTIVE_HIGH⟩ = true then 1 else 0) ∧
    (IS_TRUE ⟨name, bit, ACTIVE_LOW⟩ s).1 =
      (if pinBit s ⟨name, bit, ACTIVE_LOW⟩ = false then 1 else 0) ∧
    (IS_TRUE ⟨name, bit, ACTIVE_LOW_OC⟩ s).1 =
      (if pinBit s ⟨name, bit, ACTIVE_LOW_OC⟩ = false then 1 else 0) ∧
    (∀ pol : Int,
      ((IS_FALSE ⟨name, bit, pol⟩ s).1 = 1 ↔ (IS_TRUE ⟨name, bit, pol⟩ s).1 = 0) ∧
      ((IS_FALSE ⟨name, bit, pol⟩ s).1 = 0 ↔ (IS_TRUE ⟨name, bit, pol⟩ s).1 = 1) ∧
      (IS_TRUE ⟨name, bit, pol⟩ s).2 = s ∧
      (IS_FALSE ⟨name, bit, pol⟩ s).2 = s) := by
  refine ⟨?_, ?_, ?_, ?_⟩
  · simp [IS_TRUE, _ppp_ISTRUE, _ppp_ISHIGH, load, pinBit, ACTIVE_HIGH, shiftRight_mod_two]
  · cases h : (s.pin name).val.testBit bit <;>
      simp [IS_TRUE, _ppp_ISTRUE, _ppp_ISHIGH, load, pinBit, ACTIVE_HIGH, ACTIVE_LOW,
        shiftRight_mod_two, lnot, h]
  · cases h : (s.pin name).val.testBit bit <;>
      simp [IS_TRUE, _ppp_ISTRUE, _ppp_ISHIGH, load, pinBit, ACTIVE_HIGH, ACTIVE_LOW_OC,
        shiftRight_mod_two, lnot, h]
  · intro pol
    by_cases hp : pol = ACTIVE_HIGH <;> cases h : (s.pin name).val.testBit bit <;>
      simp [IS_TRUE, IS_FALSE, _ppp_ISTRUE, _ppp_ISHIGH, load, shiftRight_mod_two, lnot, h, hp]

/-! ## Further lemmas on register values -/

theorem and_one_shiftLeft (r b : Nat) :
    r &&& (1 <<< b) = if r.testBit b then 2 ^ b else 0 := by
  apply Nat.eq_of_testBit_eq
  intro i
  rw [Nat.testBit_and, Nat.one_shiftLeft, Nat.testBit_two_pow]
  by_cases hbi : b = i
  · subst hbi
    cases h : r.testBit b <;> simp [Nat.testBit_two_pow_self]
  · cases h : r.testBit b <;> simp [hbi, Nat.testBit_two_pow, Nat.zero_testBit]

theorem testBit_BV_high (b i : Nat) (hb : 8 ≤ b) (hi : i < 8) : (_BV b).testBit i = false := by
  rw [testBit_BV]
  exact decide_eq_false (by omega)

theorem toByte_set_high (r : Byte) (b : Nat) (hb : 8 ≤ b) : toByte (r.val ||| _BV b) = r := by
  apply Fin.ext
  apply byte_ext _ _ (Nat.mod_lt _ (by norm_num)) r.isLt
  intro i hi
  simp [toByte, testBit_mod_256, hi, testBit_BV_high b i hb hi]

theorem toByte_clr_high (r : Byte) (b : Nat) (hb : 8 ≤ b) :
    toByte (andNot r.val (_BV b)) = r := by
  apply Fin.ext
  apply byte_ext _ _ (Nat.mod_lt _ (by norm_num)) r.isLt
  intro i hi
  simp [toByte, andNot, testBit_mod_256, testBit_255, hi, testBit_BV_high b i hb hi]

theorem _ppp_SET_high (type : RegType) (name : Letter) (bit : Nat) (pol : Int) (s : State)
    (hb : 8 ≤ bit) (htype : type ≠ .PIN) : _ppp_SET type name bit pol s = s := by
  cases type
  · simp [_ppp_SET, store, load, toByte_set_high _ bit hb]
  · simp [_ppp_SET, store, load, toByte_set_high _ bit hb]
  · exact absurd rfl htype

theorem _ppp_CLR_high (type : RegType) (name : Letter) (bit : Nat) (pol : Int) (s : State)
    (hb : 8 ≤ bit) (htype : type ≠ .PIN) : _ppp_CLR type name bit pol s = s := by
  cases type
  · simp [_ppp_CLR, store, load, toByte_clr_high _ bit hb]
  · simp [_ppp_CLR, store, load, toByte_clr_high _ bit hb]
  · exact absurd rfl htype

theorem testBit_field_mask (b n k : Nat) :
    (((1 <<< n) - 1) <<< b).testBit k = (decide (b ≤ k) && decide (k - b < n)) := by
  rw [Nat.testBit_shiftLeft, Nat.one_shiftLeft, Nat.testBit_two_pow_sub_one]

theorem testBit_of_lt_two_pow (v n j : Nat) (hv : v < 2 ^ n) (hj : n ≤ j) :
    v.testBit j = false :=
  Nat.testBit_lt_two_pow (lt_of_lt_of_le hv (Nat.pow_le_pow_right (by norm_num) hj))

theorem testBit_put_mult (r : Byte) (b n v k : Nat) (hv : v < 2 ^ n) :
    ((andNot r.val (((1 <<< n) - 1) <<< b) ||| (v <<< b)) % 256).testBit k =
      (decide (k < 8) && (if b ≤ k ∧ k < b + n then v.testBit (k - b) else r.val.testBit k)) := by
  rw [testBit_mod_256, Nat.testBit_or, andNot, Nat.testBit_and, Nat.testBit_xor, testBit_255,
    testBit_mod_256, testBit_field_mask, Nat.testBit_shiftLeft]
  by_cases hk8 : k < 8
  · by_cases hbk : b ≤ k
    · by_cases hkn : k - b < n
      · have hc : b ≤ k ∧ k < b + n := ⟨hbk, by omega⟩
        simp [hk8, hbk, hkn, hc]
      · have hc : ¬ (b ≤ k ∧ k < b + n) := fun h => hkn (by omega)
        have hvk : v.testBit (k - b) = false := testBit_of_lt_two_pow v n _ hv (by omega)
        have hge : b + n ≤ k := by omega
        simp [hk8, hbk, hkn, hc, hvk, hge]
    · have hc : ¬ (b ≤ k ∧ k < b + n) := fun h => hbk h.1
      simp [hk8, hbk, hc]
  · simp [hk8]

theorem frame_store_port (p : Pin) (s : State) (v : Nat)
    (h : ∀ k : Nat, k ≠ p.bit → (v % 256).testBit k = (s.port p.name).val.testBit k) :
    onlyPinBitChanged p s (store s .PORT p.name v) := by
  refine ⟨fun k _ => rfl, ?_, ?_, rfl, rfl, rfl, rfl⟩
  · intro k hk
    simpa [store, toByte] using h k hk
  · intro x hx
    simp [store, hx]

theorem frame_store_ddr (p : Pin) (s : State) (v : Nat)
    (h : ∀ k : Nat, k ≠ p.bit → (v % 256).testBit k = (s.ddr p.name).val.testBit k) :
    onlyPinBitChanged p s (store s .DDR p.name v) := by
  refine ⟨?_, fun k _ => rfl, ?_, rfl, rfl, rfl, rfl⟩
  · intro k hk
    simpa [store, toByte] using h k hk
  · intro x hx
    simp [store, hx]

theorem frame_trans (p : Pin) (s t u : State) (h1 : onlyPinBitChanged p s t)
    (h2 : onlyPinBitChanged p t u) : onlyPinBitChanged p s u := by
  obtain ⟨a1, b1, c1, d1, e1, f1, g1⟩ := h1
  obtain ⟨a2, b2, c2, d2, e2, f2, g2⟩ := h2
  refine ⟨fun k hk => (a2 k hk).trans (a1 k hk), fun k hk => (b2 k hk).trans (b1 k hk),
    fun x hx => ⟨((c2 x hx).1).trans (c1 x hx).1, ((c2 x hx).2).trans (c1 x hx).2⟩,
    d2.trans d1, e2.trans e1, f2.trans f1, g2.trans g1⟩

theorem frame_SET_PORT (name : Letter) (bit : Nat) (pol pol2 : Int) (s : State) :
    onlyPinBitChanged ⟨name, bit, pol⟩ s (_ppp_SET .PORT name bit pol2 s) := by
  apply frame_store_port ⟨name, bit, pol⟩
  intro k hk
  rw [testBit_set_other _ _ _ hk]
  exact congrArg (fun r => Nat.testBit r k) (byte_mod (s.port name))

theorem frame_CLR_PORT (name : Letter) (bit : Nat) (pol pol2 : Int) (s : State) :
    onlyPinBitChanged ⟨name, bit, pol⟩ s (_ppp_CLR .PORT name bit pol2 s) := by
  apply frame_store_port ⟨name, bit, pol⟩
  intro k hk
  rw [testBit_clr_other _ _ _ hk]
  exact congrArg (fun r => Nat.testBit r k) (byte_mod (s.port name))

theorem frame_SET_DDR (name : Letter) (bit : Nat) (pol pol2 : Int) (s : State) :
    onlyPinBitChanged ⟨name, bit, pol⟩ s (_ppp_SET .DDR name bit pol2 s) := by
  apply frame_store_ddr ⟨name, bit, pol⟩
  intro k hk
  rw [testBit_set_other _ _ _ hk]
  exact congrArg (fun r => Nat.testBit r k) (byte_mod (s.ddr name))

theorem frame_CLR_DDR (name : Letter) (bit : Nat) (pol pol2 : Int) (s : State) :
    onlyPinBitChanged ⟨name, bit, pol⟩ s (_ppp_CLR .DDR name bit pol2 s) := by
  apply frame_store_ddr ⟨name, bit, pol⟩
  intro k hk
  rw [testBit_clr_other _ _ _ hk]
  exact congrArg (fun r => Nat.testBit r k) (byte_mod (s.ddr name))

theorem frame_PUT_PORT (name : Letter) (bit : Nat) (pol pol2 : Int) (value : Nat) (s : State) :
    onlyPinBitChanged ⟨name, bit, pol⟩ s (_ppp_PUT .PORT name bit pol2 value s) := by
  apply frame_store_port ⟨name, bit, pol⟩
  intro k hk
  have hk2 : k ≠ bit := hk
  have hclr := testBit_clr_other (s.port name).val bit k hk2
  rw [testBit_mod_256] at hclr
  simp only [load]
  rw [testBit_mod_256, Nat.testBit_or, Bool.and_or_distrib_left, hclr]
  have hbv : (if value ≠ 0 then _BV bit else 0).testBit k = false := by
    split
    · rw [testBit_BV]
      exact decide_eq_false (Ne.symm hk2)
    · exact Nat.zero_testBit k
  rw [hbv, Bool.and_false, Bool.or_false]
  exact congrArg (fun r => Nat.testBit r k) (byte_mod (s.port name))

theorem portBit_after_CLR_PORT (name : Letter) (bit : Nat) (pol : Int) (s : State)
    (hbit : bit < 8) :
    portBit (_ppp_CLR .PORT name bit pol s) ⟨name, bit, pol⟩ = false := by
  simp [portBit, _ppp_CLR, store, load, toByte, testBit_clr_self, hbit]

theorem portBit_after_DDR_write (name : Letter) (bit : Nat) (pol : Int) (s : State) :
    portBit (_ppp_SET .DDR name bit pol s) ⟨name, bit, pol⟩ = portBit s ⟨name, bit, pol⟩ ∧
    portBit (_ppp_CLR .DDR name bit pol s) ⟨name, bit, pol⟩ = portBit s ⟨name, bit, pol⟩ :=
  ⟨rfl, rfl⟩

theorem ocWrites_portBit (name : Letter) (bit : Nat) (hbit : bit < 8) (c : OcCall) (s t : State)
    (ht : t ∈ ocWrites ⟨name, bit, ACTIVE_LOW_OC⟩ c s) :
    portBit t ⟨name, bit, ACTIVE_LOW_OC⟩ = false := by
  have h1 := portBit_after_CLR_PORT name bit ACTIVE_LOW_OC s hbit
  have h2 := portBit_after_DDR_write name bit ACTIVE_LOW_OC
    (_ppp_CLR .PORT name bit ACTIVE_LOW_OC s)
  cases c
  · simp only [ocWrites, List.mem_cons, List.mem_singleton, List.not_mem_nil, or_false] at ht
    rcases ht with rfl | rfl
    · exact h1
    · rw [h2.1]; exact h1
  · simp only [ocWrites, List.mem_cons, List.mem_singleton, List.not_mem_nil, or_false] at ht
    rcases ht with rfl | rfl
    · exact h1
    · rw [h2.2]; exact h1

theorem ocWrites_last (name : Letter) (bit : Nat) (c : OcCall) (s : State) :
    (ocWrites ⟨name, bit, ACTIVE_LOW_OC⟩ c s).getLast? =
      some (ocCall ⟨name, bit, ACTIVE_LOW_OC⟩ c s) := by
  cases c <;>
    simp [ocWrites, ocCall, ASSERT, NEGATE, _ppp_ASSERT, _ppp_NEGATE, _ppp_ASSERT_OC,
      _ppp_NEGATE_OC]

theorem ocTrace_portBit (name : Letter) (bit : Nat) (hbit : bit < 8) (calls : List OcCall) :
    ∀ (s t : State), t ∈ ocTrace ⟨name, bit, ACTIVE_LOW_OC⟩ calls s →
      portBit t ⟨name, bit, ACTIVE_LOW_OC⟩ = false := by
  induction calls with
  | nil =>
    intro s t ht
    simp [ocTrace] at ht
  | cons c cs ih =>
    intro s t ht
    simp only [ocTrace, List.mem_append] at ht
    rcases ht with h | h
    · exact ocWrites_portBit name bit hbit c s t h
    · exact ih _ t h

theorem ocRun_mem_trace (p : Pin) (hp : p.pol = ACTIVE_LOW_OC) (calls : List OcCall) :
    ∀ s : State, calls ≠ [] → ocRun p calls s ∈ ocTrace p calls s := by
  obtain ⟨name, bit, pol⟩ := p
  simp only at hp
  subst hp
  induction calls with
  | nil => intro s h; exact absurd rfl h
  | cons c cs ih =>
    intro s _
    simp only [ocRun, ocTrace, List.mem_append]
    by_cases hcs : cs = []
    · subst hcs
      left
      cases c <;>
        simp [ocRun, ocWrites, ocCall, ASSERT, NEGATE, _ppp_ASSERT, _ppp_NEGATE,
          _ppp_ASSERT_OC, _ppp_NEGATE_OC]
    · right
      exact ih _ hcs

theorem toByte_clr_or_set (r b : Nat) :
    toByte (andNot r (_BV b) ||| _BV b) = toByte (r ||| _BV b) := by
  apply Fin.ext
  apply byte_ext _ _ (Nat.mod_lt _ (by norm_num)) (Nat.mod_lt _ (by norm_num))
  intro i hi
  by_cases hbi : b = i
  · simp [toByte, testBit_mod_256, testBit_BV, hi, hbi]
  · simp [toByte, andNot, testBit_mod_256, testBit_BV, testBit_255, hi, hbi]

theorem chipFamily_of_listed (defined : String → Bool) :
    ((∃ d : String, d ∈ mxx8Defines ∧ defined d = true) → chipFamily defined = .Mxx8) ∧
    ((∀ d : String, d ∈ mxx8Defines → defined d = false) →
      (∃ d : String, d ∈ mxx4Defines ∧ defined d = true) → chipFamily defined = .Mxx4) := by
  constructor
  · intro h
    have h8 : IS_Mxx8 defined = true := by
      unfold IS_Mxx8
      rw [List.any_eq_true]
      exact h
    simp [chipFamily, h8]
  · intro hno h
    have h8 : IS_Mxx8 defined = false := by
      unfold IS_Mxx8
      rw [List.any_eq_false]
      intro d hd
      simp [hno d hd]
    have h4 : IS_Mxx4 defined = true := by
      have : mxx4Defines.any defined = true := by
        rw [List.any_eq_true]
        exact h
      simp [IS_Mxx4, h8, this]
    simp [chipFamily, h8, h4]

/-! ## Claims, continued -/

/-- C11, as stated, fails: on pin B,3 with PINB = 0xFF, READ(pin) is 8, which is neither 0
nor 1 and differs from IS_HIGH(pin), which is 1. -/
theorem C11_counterexample :
    (READ ⟨.B, 3, ACTIVE_HIGH⟩ (constState 0 0 255)).1 = 8 ∧
    (IS_HIGH ⟨.B, 3, ACTIVE_HIGH⟩ (constState 0 0 255)).1 = 1 ∧
    (READ ⟨.B, 3, ACTIVE_HIGH⟩ (constState 0 0 255)).1 ≠
      (IS_HIGH ⟨.B, 3, ACTIVE_HIGH⟩ (constState 0 0 255)).1 := by
  decide

/-- C11 amended: for every register state and pin, IS_HIGH equals bit `bit` of the PIN
register as 0 or 1, IS_LOW equals 1 - IS_HIGH, and READ returns the PIN register masked
with the bit mask, that is IS_HIGH * 2^bit: 0 when the bit is clear and 2^bit when it is
set, so it is non-zero exactly when IS_HIGH is 1; none of the three changes a register. -/
theorem C11_physical_read (s : State) (name : Letter) (bit : Nat) (pol : Int) :
    (IS_HIGH ⟨name, bit, pol⟩ s).1 = (if pinBit s ⟨name, bit, pol⟩ = true then 1 else 0) ∧
    ((IS_HIGH ⟨name, bit, pol⟩ s).1 = 0 ∨ (IS_HIGH ⟨name, bit, pol⟩ s).1 = 1) ∧
    (IS_LOW ⟨name, bit, pol⟩ s).1 = 1 - (IS_HIGH ⟨name, bit, pol⟩ s).1 ∧
    (READ ⟨name, bit, pol⟩ s).1 = (IS_HIGH ⟨name, bit, pol⟩ s).1 * 2 ^ bit ∧
    ((READ ⟨name, bit, pol⟩ s).1 ≠ 0 ↔ (IS_HIGH ⟨name, bit, pol⟩ s).1 = 1) ∧
    (IS_HIGH ⟨name, bit, pol⟩ s).2 = s ∧ (IS_LOW ⟨name, bit, pol⟩ s).2 = s ∧
    (READ ⟨name, bit, pol⟩ s).2 = s := by
  have hpos : 2 ^ bit ≠ 0 := Nat.pos_iff_ne_zero.mp (Nat.two_pow_pos bit)
  cases h : (s.pin name).val.testBit bit <;>
    simp [IS_HIGH, IS_LOW, READ, _ppp_ISHIGH, _ppp_READ, load, pinBit, shiftRight_mod_two,
      and_one_shiftLeft, lnot, h, hpos]

/-- C12, the code at the failing inputs, on family Mxx8 and pin B,0 (group 0, flag bit 0):
with PCIFR = 0x01 (flag set) PCIFx_TEST yields 0 and leaves PCIFR = 0x00; with
PCIFR = 0x02 (flag clear) it yields 2; the unused `_ppp_PCIFx_TEST` yields 1 and 0 there
and leaves PCIFR as it was. -/
theorem C12_pcifx_test_is_clear :
    (PCIFx_TEST .Mxx8 avrPCIE ⟨.B, 0, ACTIVE_HIGH⟩ (pciState 0 0 1)).map (fun r => r.1)
      = some 0 ∧
    (PCIFx_TEST .Mxx8 avrPCIE ⟨.B, 0, ACTIVE_HIGH⟩ (pciState 0 0 1)).map (fun r => r.2.pcifr)
      = some 0 ∧
    (PCIFx_TEST .Mxx8 avrPCIE ⟨.B, 0, ACTIVE_HIGH⟩ (pciState 0 0 2)).map (fun r => r.1)
      = some 2 ∧
    (_ppp_PCIFx_TEST .Mxx8 avrPCIE .B 0 ACTIVE_HIGH (pciState 0 0 1)).map (fun r => r.1)
      = some 1 ∧
    (_ppp_PCIFx_TEST .Mxx8 avrPCIE .B 0 ACTIVE_HIGH (pciState 0 0 2)).map (fun r => r.1)
      = some 0 ∧
    (_ppp_PCIFx_TEST .Mxx8 avrPCIE .B 0 ACTIVE_HIGH (pciState 0 0 1)).map (fun r => r.2.pcifr)
      = some 1 := by
  decide

/-- C13, as stated, fails: when the build defines no device macro at all, the header
still selects an implementation, the fallback one: the family is `other`, the alias
`_PCMSKB` stands for `PCMSK0`, and TOGGLE on pin B,0 runs and sets bit 0 of PORTB from
all registers zero. -/
theorem C13_counterexample :
    chipFamily (fun _ => false) = .other ∧
    _PCMSK (chipFamily (fun _ => false)) .B = some 0 ∧
    _PCIE (chipFamily (fun _ => false)) .B = some 0 ∧
    _PCINT_vect (chipFamily (fun _ => false)) .B = some 0 ∧
    portBit (TOGGLE (chipFamily (fun _ => false)) ⟨.B, 0, ACTIVE_HIGH⟩ (constState 0 0 0))
      ⟨.B, 0, ACTIVE_HIGH⟩ = true := by
  decide

/-- C13 amended: for every target whose device macro is none of the listed ATmega x8 / x4
variants (or with no device macro), the header does not fail but selects the fallback
branches: TOGGLE is the read-modify-write `PORTx ^= _BV(bit)`, the pin-change alias
tables hold port B alone, as group 0, and no Arduino pin base is defined. -/
theorem C13_unlisted_chip_selects_fallback (defined : String → Bool)
    (hunlisted : ∀ d : String, d ∈ mxx8Defines ++ mxx4Defines → defined d = false) :
    chipFamily defined = .other ∧
    (∀ (p : Pin) (s : State),
      TOGGLE (chipFamily defined) p s =
        store s .PORT p.name (load s .PORT p.name ^^^ _BV p.bit)) ∧
    (∀ x : Letter, _PCMSK (chipFamily defined) x = if x = .B then some 0 else none) ∧
    (∀ x : Letter, _PCIE (chipFamily defined) x = if x = .B then some 0 else none) ∧
    (∀ x : Letter, _PCINT_vect (chipFamily defined) x = if x = .B then some 0 else none) ∧
    (∀ x : Letter, _ARDUINO_PIN_BASE (chipFamily defined) x = none) := by
  have h8 : IS_Mxx8 defined = false := by
    unfold IS_Mxx8
    rw [List.any_eq_false]
    intro d hd
    simp [hunlisted d (List.mem_append_left _ hd)]
  have h4 : IS_Mxx4 defined = false := by
    have h : mxx4Defines.any defined = false := by
      rw [List.any_eq_false]
      intro d hd
      simp [hunlisted d (List.mem_append_right _ hd)]
    simp [IS_Mxx4, h]
  have hfam : chipFamily defined = .other := by
    simp [chipFamily, h8, h4]
  rw [hfam]
  refine ⟨rfl, fun p s => rfl, ?_, ?_, ?_, ?_⟩ <;> intro x <;> cases x <;> rfl

/-- C13 amended, with no device macro defined: the fallback is what the header selects. -/
theorem C13_unlisted_chip_selects_fallback_witness :
    chipFamily (fun _ => false) = .other ∧
    (∀ (p : Pin) (s : State),
      TOGGLE (chipFamily (fun _ => false)) p s =
        store s .PORT p.name (load s .PORT p.name ^^^ _BV p.bit)) ∧
    (∀ x : Letter, _PCMSK (chipFamily (fun _ => false)) x = if x = .B then some 0 else none) ∧
    (∀ x : Letter, _PCIE (chipFamily (fun _ => false)) x = if x = .B then some 0 else none) ∧
    (∀ x : Letter,
      _PCINT_vect (chipFamily (fun _ => false)) x = if x = .B then some 0 else none) ∧
    (∀ x : Letter, _ARDUINO_PIN_BASE (chipFamily (fun _ => false)) x = none) :=
  C13_unlisted_chip_selects_fallback (fun _ => false) (fun _ _ => rfl)

/-- C14, as stated, fails: the descriptor B,8 is accepted by every operation, which runs
its usual read-modify-write with the mask `_BV(8)`: from DDRB = 0x0F, PORTB = 0xF0,
PINB = 0xFF the registers come out as they were and IS_HIGH yields 0. -/
theorem C14_counterexample :
    ((AS_OUTPUT ⟨.B, 8, ACTIVE_HIGH⟩ (constState 15 240 255)).ddr .B = 15 ∧
     (SET_HIGH ⟨.B, 8, ACTIVE_HIGH⟩ (constState 15 240 255)).port .B = 240 ∧
     (SET_LOW ⟨.B, 8, ACTIVE_HIGH⟩ (constState 15 240 255)).port .B = 240 ∧
     (SET ⟨.B, 8, ACTIVE_HIGH⟩ 1 (constState 15 240 255)).port .B = 240 ∧
     (ASSERT ⟨.B, 8, ACTIVE_HIGH⟩ (constState 15 240 255)).port .B = 240 ∧
     (NEGATE ⟨.B, 8, ACTIVE_HIGH⟩ (constState 15 240 255)).port .B = 240) ∧
    (IS_HIGH ⟨.B, 8, ACTIVE_HIGH⟩ (constState 15 240 255)).1 = 0 := by
  decide

/-- C14 amended: the header has no check of the bit index.  A descriptor with bit index in
8..14 (where `1 << bit` is a 16-bit `int`) is accepted, and each operation runs its usual
read-modify-write with a mask that has no bit in the 8-bit register: AS_OUTPUT, SET_HIGH,
SET_LOW, SET, ASSERT and NEGATE leave the register file as it was, and IS_HIGH yields 0. -/
theorem C14_bit_index_not_checked (s : State) (name : Letter) (bit : Nat) (pol : Int)
    (value : Nat) (hlo : 8 ≤ bit) (_hhi : bit < 15) :
    AS_OUTPUT ⟨name, bit, pol⟩ s = s ∧
    SET_HIGH ⟨name, bit, pol⟩ s = s ∧
    SET_LOW ⟨name, bit, pol⟩ s = s ∧
    SET ⟨name, bit, pol⟩ value s = s ∧
    ASSERT ⟨name, bit, pol⟩ s = s ∧
    NEGATE ⟨name, bit, pol⟩ s = s ∧
    IS_HIGH ⟨name, bit, pol⟩ s = (0, s) := by
  have hset : ∀ (type : RegType) (t : State), type ≠ .PIN →
      _ppp_SET type name bit pol t = t := fun type t h => _ppp_SET_high type name bit pol t hlo h
  have hclr : ∀ (type : RegType) (t : State), type ≠ .PIN →
      _ppp_CLR type name bit pol t = t := fun type t h => _ppp_CLR_high type name bit pol t hlo h
  have hD : RegType.DDR ≠ RegType.PIN := by decide
  have hP : RegType.PORT ≠ RegType.PIN := by decide
  refine ⟨hset _ _ hD, hset _ _ hP, hclr _ _ hP, ?_, ?_, ?_, ?_⟩
  · by_cases hv : value = 0
    · simp [SET, _ppp_PUT, store, load, hv, toByte_clr_high _ bit hlo]
    · have h2 : toByte (andNot (s.port name).val (_BV bit) ||| _BV bit) = s.port name := by
        apply Fin.ext
        apply byte_ext _ _ (Nat.mod_lt _ (by norm_num)) (s.port name).isLt
        intro i hi
        have hbv := testBit_BV_high bit i hlo hi
        have hr := congrArg (fun x : Byte => x.val.testBit i) (toByte_clr_high (s.port name) bit hlo)
        simp only [toByte, testBit_mod_256] at hr
        simp only [toByte, testBit_mod_256, Nat.testBit_or, hbv, Bool.or_false]
        exact hr
      simp [SET, _ppp_PUT, store, load, hv, h2]
  · simp only [ASSERT, _ppp_ASSERT, _ppp_ASSERT_OC, _ppp_ASSERT_PP]
    split
    · rw [hclr _ _ hP, hset _ _ hD]
    · split
      · exact hset _ _ hP
      · exact hclr _ _ hP
  · simp only [NEGATE, _ppp_NEGATE, _ppp_NEGATE_OC, _ppp_NEGATE_PP]
    split
    · rw [hclr _ _ hP, hclr _ _ hD]
    · split
      · exact hclr _ _ hP
      · exact hset _ _ hP
  · have hbit : (s.pin name).val.testBit bit = false := by
      rw [byte_testBit]
      simp [show ¬ bit < 8 by omega]
    simp [IS_HIGH, _ppp_ISHIGH, load, shiftRight_mod_two, hbit]

/-- C14 amended, at the descriptor D,9 on DDRD = 0x0F, PORTD = 0xF0, PIND = 0xFF. -/
theorem C14_bit_index_not_checked_witness :
    8 ≤ 9 ∧ 9 < 15 ∧
    AS_OUTPUT ⟨.D, 9, ACTIVE_LOW⟩ (constState 15 240 255) = constState 15 240 255 ∧
    ASSERT ⟨.D, 9, ACTIVE_LOW⟩ (constState 15 240 255) = constState 15 240 255 ∧
    IS_HIGH ⟨.D, 9, ACTIVE_LOW⟩ (constState 15 240 255) = (0, constState 15 240 255) :=
  ⟨by decide, by decide,
   (C14_bit_index_not_checked (constState 15 240 255) .D 9 ACTIVE_LOW 1 (by decide)
      (by decide)).1,
   (C14_bit_index_not_checked (constState 15 240 255) .D 9 ACTIVE_LOW 1 (by decide)
      (by decide)).2.2.2.2.1,
   (C14_bit_index_not_checked (constState 15 240 255) .D 9 ACTIVE_LOW 1 (by decide)
      (by decide)).2.2.2.2.2.2⟩

/-- C15: for every register state, pin with start bit b, width n with b + n <= 8 and value
v < 2^n, SET_MULT(pin, n, v) leaves bits b..b+n-1 of the PORT register equal to v, leaves
every PORT bit outside that field unchanged, and changes no other register. -/
theorem C15_set_mult_field (s : State) (name : Letter) (b : Nat) (pol : Int) (n v : Nat)
    (hfield : b + n ≤ 8) (hv : v < 2 ^ n) :
    (∀ i : Nat, i < n →
      ((SET_MULT ⟨name, b, pol⟩ n v s).port name).val.testBit (b + i) = v.testBit i) ∧
    ((SET_MULT ⟨name, b, pol⟩ n v s).port name).val >>> b % 2 ^ n = v ∧
    (∀ k : Nat, (k < b ∨ b + n ≤ k) →
      ((SET_MULT ⟨name, b, pol⟩ n v s).port name).val.testBit k =
        (s.port name).val.testBit k) ∧
    (∀ x : Letter, x ≠ name → (SET_MULT ⟨name, b, pol⟩ n v s).port x = s.port x) ∧
    (SET_MULT ⟨name, b, pol⟩ n v s).ddr = s.ddr ∧
    (SET_MULT ⟨name, b, pol⟩ n v s).pin = s.pin := by
  have hval : ((SET_MULT ⟨name, b, pol⟩ n v s).port name).val =
      (andNot (s.port name).val (((1 <<< n) - 1) <<< b) ||| (v <<< b)) % 256 := by
    simp [SET_MULT, _ppp_PUT_MULT, store, load, toByte]
  have hin : ∀ i : Nat, i < n →
      ((SET_MULT ⟨name, b, pol⟩ n v s).port name).val.testBit (b + i) = v.testBit i := by
    intro i hi
    rw [hval, testBit_put_mult _ _ _ _ _ hv]
    have h8 : b + i < 8 := by omega
    have hc : b ≤ b + i ∧ b + i < b + n := ⟨by omega, by omega⟩
    simp [h8, hc]
  refine ⟨hin, ?_, ?_, ?_, rfl, rfl⟩
  · apply Nat.eq_of_testBit_eq
    intro i
    rw [Nat.testBit_mod_two_pow, Nat.testBit_shiftRight]
    by_cases hi : i < n
    · simp [hi, hin i hi]
    · simp [hi, testBit_of_lt_two_pow v n i hv (by omega)]
  · intro k hk
    rw [hval, testBit_put_mult _ _ _ _ _ hv]
    have hc : ¬ (b ≤ k ∧ k < b + n) := by omega
    rw [if_neg hc]
    exact (byte_testBit (s.port name) k).symm
  · intro x hx
    simp [SET_MULT, _ppp_PUT_MULT, store, hx]

/-- C15 at pin B,2 with width 3 and value 5 on PORTB = 0xFF: bits 2..4 become 101. -/
theorem C15_set_mult_field_witness :
    2 + 3 ≤ 8 ∧ 5 < 2 ^ 3 ∧
    ((SET_MULT ⟨.B, 2, ACTIVE_HIGH⟩ 3 5 (constState 0 255 0)).port .B).val >>> 2 % 2 ^ 3 = 5 :=
  ⟨by decide, by decide,
   (C15_set_mult_field (constState 0 255 0) .B 2 ACTIVE_HIGH 3 5 (by decide) (by decide)).2.1⟩

/-- C16: for every register state, pin and value, each of AS_INPUT, AS_OUTPUT,
PULLUP_ENABLE, PULLUP_DISABLE, SET_HIGH, SET_LOW, SET, SET_PA, ASSERT and NEGATE leaves
unchanged every bit other than bit `bit` of the DDR and PORT register of the pin and every
other register; SET and SET_PA leave the whole DDR register unchanged, for every polarity,
ACTIVE_LOW_OC included. -/
theorem C16_single_pin_frame (s : State) (name : Letter) (bit : Nat) (pol : Int) (value : Nat) :
    onlyPinBitChanged ⟨name, bit, pol⟩ s (AS_INPUT ⟨name, bit, pol⟩ s) ∧
    onlyPinBitChanged ⟨name, bit, pol⟩ s (AS_OUTPUT ⟨name, bit, pol⟩ s) ∧
    onlyPinBitChanged ⟨name, bit, pol⟩ s (PULLUP_ENABLE ⟨name, bit, pol⟩ s) ∧
    onlyPinBitChanged ⟨name, bit, pol⟩ s (PULLUP_DISABLE ⟨name, bit, pol⟩ s) ∧
    onlyPinBitChanged ⟨name, bit, pol⟩ s (SET_HIGH ⟨name, bit, pol⟩ s) ∧
    onlyPinBitChanged ⟨name, bit, pol⟩ s (SET_LOW ⟨name, bit, pol⟩ s) ∧
    onlyPinBitChanged ⟨name, bit, pol⟩ s (SET ⟨name, bit, pol⟩ value s) ∧
    onlyPinBitChanged ⟨name, bit, pol⟩ s (SET_PA ⟨name, bit, pol⟩ value s) ∧
    onlyPinBitChanged ⟨name, bit, pol⟩ s (ASSERT ⟨name, bit, pol⟩ s) ∧
    onlyPinBitChanged ⟨name, bit, pol⟩ s (NEGATE ⟨name, bit, pol⟩ s) ∧
    (SET ⟨name, bit, pol⟩ value s).ddr = s.ddr ∧
    (SET_PA ⟨name, bit, pol⟩ value s).ddr = s.ddr ∧
    (SET ⟨name, bit, ACTIVE_LOW_OC⟩ value s).ddr = s.ddr ∧
    (SET_PA ⟨name, bit, ACTIVE_LOW_OC⟩ value s).ddr = s.ddr := by
  refine ⟨frame_CLR_DDR name bit pol pol s, frame_SET_DDR name bit pol pol s,
    frame_SET_PORT name bit pol pol s, frame_CLR_PORT name bit pol pol s,
    frame_SET_PORT name bit pol pol s, frame_CLR_PORT name bit pol pol s,
    frame_PUT_PORT name bit pol pol value s, frame_PUT_PORT name bit pol pol _ s,
    ?_, ?_, rfl, rfl, rfl, rfl⟩
  · simp only [ASSERT, _ppp_ASSERT, _ppp_ASSERT_OC, _ppp_ASSERT_PP]
    split
    · exact frame_trans _ _ _ _ (frame_CLR_PORT name bit pol pol s)
        (frame_SET_DDR name bit pol pol _)
    · split
      · exact frame_SET_PORT name bit pol pol s
      · exact frame_CLR_PORT name bit pol pol s
  · simp only [NEGATE, _ppp_NEGATE, _ppp_NEGATE_OC, _ppp_NEGATE_PP]
    split
    · exact frame_trans _ _ _ _ (frame_CLR_PORT name bit pol pol s)
        (frame_CLR_DDR name bit pol pol _)
    · split
      · exact frame_CLR_PORT name bit pol pol s
      · exact frame_SET_PORT name bit pol pol s

/-- C17: for every starting state and every ACTIVE_LOW_OC pin with bit index in 0..7, the
two stores of ASSERT and of NEGATE end in the state the macro leaves, and in every register
state that occurs after a store during any sequence of ASSERT and NEGATE calls, and so in
the state after any non-empty sequence, it is not the case that the DDR bit is 1 and the
PORT bit is 1: the PORT bit is 0 in all of them. -/
theorem C17_open_collector_never_driven_high (s : State) (name : Letter) (bit : Nat)
    (calls : List OcCall) (hbit : bit < 8) :
    (∀ (c : OcCall) (u : State),
      (ocWrites ⟨name, bit, ACTIVE_LOW_OC⟩ c u).getLast? =
        some (ocCall ⟨name, bit, ACTIVE_LOW_OC⟩ c u)) ∧
    (∀ t : State, t ∈ ocTrace ⟨name, bit, ACTIVE_LOW_OC⟩ calls s →
      portBit t ⟨name, bit, ACTIVE_LOW_OC⟩ = false ∧
      ¬ (ddrBit t ⟨name, bit, ACTIVE_LOW_OC⟩ = true ∧
          portBit t ⟨name, bit, ACTIVE_LOW_OC⟩ = true)) ∧
    (calls ≠ [] →
      ¬ (ddrBit (ocRun ⟨name, bit, ACTIVE_LOW_OC⟩ calls s) ⟨name, bit, ACTIVE_LOW_OC⟩ = true ∧
          portBit (ocRun ⟨name, bit, ACTIVE_LOW_OC⟩ calls s) ⟨name, bit, ACTIVE_LOW_OC⟩
            = true)) := by
  have htrace := ocTrace_portBit name bit hbit calls s
  refine ⟨fun c u => ocWrites_last name bit c u, ?_, ?_⟩
  · intro t ht
    have h := htrace t ht
    exact ⟨h, fun hbad => by rw [h] at hbad; exact Bool.noConfusion hbad.2⟩
  · intro hne hbad
    have h := htrace _ (ocRun_mem_trace ⟨name, bit, ACTIVE_LOW_OC⟩ rfl calls s hne)
    rw [h] at hbad
    exact Bool.noConfusion hbad.2

/-- C17 at pin C,4 from DDRC = 0xFF, PORTC = 0xFF (driven high before the first call), for
the calls ASSERT, NEGATE, ASSERT: none of the six states after a store, nor the final one,
has DDR bit 1 and PORT bit 1. -/
theorem C17_open_collector_never_driven_high_witness :
    4 < 8 ∧
    (∀ t : State,
      t ∈ ocTrace ⟨.C, 4, ACTIVE_LOW_OC⟩ [.assert, .negate, .assert] (constState 255 255 0) →
      portBit t ⟨.C, 4, ACTIVE_LOW_OC⟩ = false ∧
      ¬ (ddrBit t ⟨.C, 4, ACTIVE_LOW_OC⟩ = true ∧ portBit t ⟨.C, 4, ACTIVE_LOW_OC⟩ = true)) ∧
    ¬ (ddrBit (ocRun ⟨.C, 4, ACTIVE_LOW_OC⟩ [.assert, .negate, .assert] (constState 255 255 0))
          ⟨.C, 4, ACTIVE_LOW_OC⟩ = true ∧
        portBit (ocRun ⟨.C, 4, ACTIVE_LOW_OC⟩ [.assert, .negate, .assert]
          (constState 255 255 0)) ⟨.C, 4, ACTIVE_LOW_OC⟩ = true) :=
  ⟨by decide,
   (C17_open_collector_never_driven_high (constState 255 255 0) .C 4
      [.assert, .negate, .assert] (by decide)).2.1,
   (C17_open_collector_never_driven_high (constState 255 255 0) .C 4
      [.assert, .negate, .assert] (by decide)).2.2 (by decide)⟩

/-- C18: in every family the three alias tables give the same group index for every port
letter, and a port has a group exactly for Mxx4: A,B,C,D; Mxx8: B,C,D; fallback: B.  For a
port with group n, bit index in 0..7 and enable bit number PCIEn in 0..7: PCIEx is PCIEn,
PCI_ISR names vector n, PCI_ENABLE sets and PCI_DISABLE clears bit `bit` of PCMSKn and no
other bit of any register, and PCIEx_ENABLE sets and PCIEx_DISABLE clears bit PCIEn of
PCICR and no other bit of any register. -/
theorem C18_pin_change_group (fam : Family) (name : Letter) (n : Fin 4) (bit : Nat)
    (pol : Int) (pcie : Fin 4 → Nat) (s : State)
    (hgroup : _PCMSK fam name = some n) (hbit : bit < 8) (hpcie : pcie n < 8) :
    (∀ (f : Family) (x : Letter), _PCMSK f x = _PCIE f x ∧ _PCIE f x = _PCINT_vect f x) ∧
    (∀ (f : Family) (x : Letter), (_PCMSK f x).isSome = true ↔
      (f = .Mxx4 ∨ (f = .Mxx8 ∧ x ≠ .A) ∨ (f = .other ∧ x = .B))) ∧
    PCIEx fam pcie ⟨name, bit, pol⟩ = some (pcie n) ∧
    PCI_ISR fam ⟨name, bit, pol⟩ = some n ∧
    (∃ t : State, PCI_ENABLE fam ⟨name, bit, pol⟩ s = some t ∧
      (t.pcmsk n).val.testBit bit = true ∧
      (∀ k : Nat, k ≠ bit → (t.pcmsk n).val.testBit k = (s.pcmsk n).val.testBit k) ∧
      (∀ m : Fin 4, m ≠ n → t.pcmsk m = s.pcmsk m) ∧
      t.pcicr = s.pcicr ∧ t.pcifr = s.pcifr ∧ t.ddr = s.ddr ∧ t.port = s.port ∧
      t.pin = s.pin) ∧
    (∃ t : State, PCI_DISABLE fam ⟨name, bit, pol⟩ s = some t ∧
      (t.pcmsk n).val.testBit bit = false ∧
      (∀ k : Nat, k ≠ bit → (t.pcmsk n).val.testBit k = (s.pcmsk n).val.testBit k) ∧
      (∀ m : Fin 4, m ≠ n → t.pcmsk m = s.pcmsk m) ∧
      t.pcicr = s.pcicr ∧ t.pcifr = s.pcifr ∧ t.ddr = s.ddr ∧ t.port = s.port ∧
      t.pin = s.pin) ∧
    (∃ t : State, PCIEx_ENABLE fam pcie ⟨name, bit, pol⟩ s = some t ∧
      t.pcicr.val.testBit (pcie n) = true ∧
      (∀ k : Nat, k ≠ pcie n → t.pcicr.val.testBit k = s.pcicr.val.testBit k) ∧
      t.pcmsk = s.pcmsk ∧ t.pcifr = s.pcifr ∧ t.ddr = s.ddr ∧ t.port = s.port ∧
      t.pin = s.pin) ∧
    (∃ t : State, PCIEx_DISABLE fam pcie ⟨name, bit, pol⟩ s = some t ∧
      t.pcicr.val.testBit (pcie n) = false ∧
      (∀ k : Nat, k ≠ pcie n → t.pcicr.val.testBit k = s.pcicr.val.testBit k) ∧
      t.pcmsk = s.pcmsk ∧ t.pcifr = s.pcifr ∧ t.ddr = s.ddr ∧ t.port = s.port ∧
      t.pin = s.pin) := by
  have htab : ∀ (f : Family) (x : Letter),
      _PCMSK f x = _PCIE f x ∧ _PCIE f x = _PCINT_vect f x := by
    intro f x
    cases f <;> cases x <;> exact ⟨rfl, rfl⟩
  have hie : _PCIE fam name = some n := by rw [← (htab fam name).1]; exact hgroup
  have hvec : _PCINT_vect fam name = some n := by rw [← (htab fam name).2]; exact hie
  refine ⟨htab, ?_, ?_, ?_, ?_, ?_, ?_, ?_⟩
  · intro f x
    cases f <;> cases x <;> simp [_PCMSK]
  · simp [PCIEx, _ppp_PCIEx, hie]
  · simp [PCI_ISR, _ppp_ISR, hvec]
  · have hrun : PCI_ENABLE fam ⟨name, bit, pol⟩ s = some
        { s with pcmsk := Function.update s.pcmsk n (toByte ((s.pcmsk n).val ||| _BV bit)) } := by
      simp only [PCI_ENABLE, hgroup, Option.map_some']
    refine ⟨_, hrun, ?_, ?_, ?_, rfl, rfl, rfl, rfl, rfl⟩
    · simp [toByte, testBit_set_self, hbit]
    · intro k hk
      simp only [Function.update_same, toByte]
      rw [testBit_set_other _ _ _ hk, byte_mod]
    · intro m hm
      simp [Function.update_noteq hm]
  · have hrun : PCI_DISABLE fam ⟨name, bit, pol⟩ s = some
        { s with
          pcmsk := Function.update s.pcmsk n (toByte (andNot (s.pcmsk n).val (_BV bit))) } := by
      simp only [PCI_DISABLE, hgroup, Option.map_some']
    refine ⟨_, hrun, ?_, ?_, ?_, rfl, rfl, rfl, rfl, rfl⟩
    · simp [toByte, testBit_clr_self, hbit]
    · intro k hk
      simp only [Function.update_same, toByte]
      rw [testBit_clr_other _ _ _ hk, byte_mod]
    · intro m hm
      simp [Function.update_noteq hm]
  · have hrun : PCIEx_ENABLE fam pcie ⟨name, bit, pol⟩ s =
        some { s with pcicr := toByte (s.pcicr.val ||| _BV (pcie n)) } := by
      simp only [PCIEx_ENABLE, _ppp_PCIEx_ENABLE, hie, Option.map_some']
    refine ⟨_, hrun, ?_, ?_, rfl, rfl, rfl, rfl, rfl⟩
    · simp [toByte, testBit_set_self, hpcie]
    · intro k hk
      simp only [toByte]
      rw [testBit_set_other _ _ _ hk, byte_mod]
  · have hrun : PCIEx_DISABLE fam pcie ⟨name, bit, pol⟩ s =
        some { s with pcicr := toByte (andNot s.pcicr.val (_BV (pcie n))) } := by
      simp only [PCIEx_DISABLE, _ppp_PCIEx_DISABLE, hie, Option.map_some']
    refine ⟨_, hrun, ?_, ?_, rfl, rfl, rfl, rfl, rfl⟩
    · simp [toByte, testBit_clr_self, hpcie]
    · intro k hk
      simp only [toByte]
      rw [testBit_clr_other _ _ _ hk, byte_mod]

/-- C18 on family Mxx8 at pin C,3 (group 1) with the device bit numbers PCIEn = n, from
all pin change registers zero. -/
theorem C18_pin_change_group_witness :
    _PCMSK .Mxx8 .C = some 1 ∧ 3 < 8 ∧ avrPCIE 1 < 8 ∧
    PCIEx .Mxx8 avrPCIE ⟨.C, 3, ACTIVE_HIGH⟩ = some (avrPCIE 1) ∧
    PCI_ISR .Mxx8 ⟨.C, 3, ACTIVE_HIGH⟩ = some 1 ∧
    (∃ t : State, PCI_ENABLE .Mxx8 ⟨.C, 3, ACTIVE_HIGH⟩ (pciState 0 0 0) = some t ∧
      (t.pcmsk 1).val.testBit 3 = true ∧
      (∀ k : Nat, k ≠ 3 → (t.pcmsk 1).val.testBit k = ((pciState 0 0 0).pcmsk 1).val.testBit k) ∧
      (∀ m : Fin 4, m ≠ 1 → t.pcmsk m = (pciState 0 0 0).pcmsk m) ∧
      t.pcicr = (pciState 0 0 0).pcicr ∧ t.pcifr = (pciState 0 0 0).pcifr ∧
      t.ddr = (pciState 0 0 0).ddr ∧ t.port = (pciState 0 0 0).port ∧
      t.pin = (pciState 0 0 0).pin) :=
  ⟨rfl, by decide, by decide,
   (C18_pin_change_group .Mxx8 .C 1 3 ACTIVE_HIGH avrPCIE (pciState 0 0 0) rfl (by decide)
      (by decide)).2.2.1,
   (C18_pin_change_group .Mxx8 .C 1 3 ACTIVE_HIGH avrPCIE (pciState 0 0 0) rfl (by decide)
      (by decide)).2.2.2.1,
   (C18_pin_change_group .Mxx8 .C 1 3 ACTIVE_HIGH avrPCIE (pciState 0 0 0) rfl (by decide)
      (by decide)).2.2.2.2.1⟩

/-- C19: for every pin with polarity ACTIVE_HIGH or ACTIVE_LOW, every state and every
value v, SET_PA(pin, v) produces exactly the register state of ASSERT(pin) when v is
non-zero and of NEGATE(pin) when v is zero. -/
theorem C19_set_pa_refines_assert_negate (s : State) (name : Letter) (bit : Nat) (pol : Int)
    (v : Nat) (hpol : pol = ACTIVE_HIGH ∨ pol = ACTIVE_LOW) :
    (v ≠ 0 → SET_PA ⟨name, bit, pol⟩ v s = ASSERT ⟨name, bit, pol⟩ s) ∧
    (v = 0 → SET_PA ⟨name, bit, pol⟩ v s = NEGATE ⟨name, bit, pol⟩ s) := by
  have hor := toByte_clr_or_set (s.port name).val bit
  rcases hpol with h | h <;> subst h <;> constructor <;> intro hv <;>
    simp [SET_PA, ASSERT, NEGATE, _ppp_PUT_PA, _ppp_PUT, _ppp_ASSERT, _ppp_NEGATE,
      _ppp_ASSERT_PP, _ppp_NEGATE_PP, _ppp_SET, _ppp_CLR, store, load, ACTIVE_HIGH, ACTIVE_LOW,
      ACTIVE_LOW_OC, lnot, hv, hor]

/-- C19 at the led pin B,1 of the example program and at the ACTIVE_LOW pin D,6, from
PORT = 0x55. -/
theorem C19_set_pa_refines_assert_negate_witness :
    SET_PA ⟨.B, 1, ACTIVE_HIGH⟩ 1 (constState 0 85 0) =
      ASSERT ⟨.B, 1, ACTIVE_HIGH⟩ (constState 0 85 0) ∧
    SET_PA ⟨.D, 6, ACTIVE_LOW⟩ 0 (constState 0 85 0) =
      NEGATE ⟨.D, 6, ACTIVE_LOW⟩ (constState 0 85 0) :=
  ⟨(C19_set_pa_refines_assert_negate (constState 0 85 0) .B 1 ACTIVE_HIGH 1 (Or.inl rfl)).1
      (by decide),
   (C19_set_pa_refines_assert_negate (constState 0 85 0) .D 6 ACTIVE_LOW 0 (Or.inr rfl)).2
      rfl⟩

/-- C20, as stated, fails: on family Mxx8 the distinct pins B,6 and C,0 both have Arduino
pin number 14. -/
theorem C20_counterexample :
    ARDUINO_PIN .Mxx8 ⟨.B, 6, ACTIVE_HIGH⟩ = some 14 ∧
    ARDUINO_PIN .Mxx8 ⟨.C, 0, ACTIVE_HIGH⟩ = some 14 ∧
    (Letter.B ≠ Letter.C) ∧ 6 < 8 ∧ 0 < 8 := by
  decide

/-- C20 amended: on family Mxx4 (ports A,B,C,D), ARDUINO_PIN = bit + base(port) maps
distinct pins with bit index in 0..7 to distinct numbers; on family Mxx8 (ports B,C,D) it
does so for the pins with bit index 0..5 on port B and 0..7 on ports C and D. -/
theorem C20_arduino_pin_injective (fam : Family) (p q : Pin) (n : Nat)
    (hp : p.bit < 8) (hq : q.bit < 8)
    (hfam : fam = .Mxx4 ∨
      (fam = .Mxx8 ∧ (p.name = .B → p.bit < 6) ∧ (q.name = .B → q.bit < 6)))
    (hpn : ARDUINO_PIN fam p = some n) (hqn : ARDUINO_PIN fam q = some n) :
    p.name = q.name ∧ p.bit = q.bit := by
  obtain ⟨pname, pbit, ppol⟩ := p
  obtain ⟨qname, qbit, qpol⟩ := q
  simp only at hp hq hfam ⊢
  rcases hfam with hf | ⟨hf, hpB, hqB⟩
  · subst hf
    cases pname <;> cases qname <;>
      simp [ARDUINO_PIN, _ppp_ARDUINO_PIN, _ppp_ARDUINO_PIN_BASE, _ARDUINO_PIN_BASE]
        at hpn hqn ⊢ <;> omega
  · subst hf
    cases pname <;> cases qname <;>
      simp [ARDUINO_PIN, _ppp_ARDUINO_PIN, _ppp_ARDUINO_PIN_BASE, _ARDUINO_PIN_BASE]
        at hpn hqn hpB hqB ⊢ <;> omega

/-- C20 amended, at pin C,0 of family Mxx8, whose number 14 is shared with no pin B,0..5
and is found again only from C,0 itself. -/
theorem C20_arduino_pin_injective_witness :
    (0 < 8 ∧ ARDUINO_PIN .Mxx8 ⟨.C, 0, ACTIVE_HIGH⟩ = some 14 ∧
      ARDUINO_PIN .Mxx8 ⟨.C, 0, ACTIVE_LOW⟩ = some 14) ∧
    (Letter.C = Letter.C ∧ 0 = 0) :=
  ⟨⟨by decide, rfl, rfl⟩,
   C20_arduino_pin_injective .Mxx8 ⟨.C, 0, ACTIVE_HIGH⟩ ⟨.C, 0, ACTIVE_LOW⟩ 14 (by decide)
     (by decide) (Or.inr ⟨rfl, by decide, by decide⟩) rfl rfl⟩

end Stdpins
